import Mathlib

/-!
Verification of the per-pixel albedo computation `CalculateAlbedo` from
`sentinel-2-albedo/albedo/CalculateAlbedo.c`.

The C code is embedded shallowly:
* C `double` values become exact rationals `ℚ` (the development verifies the
  exact arithmetic the source expresses; IEEE rounding is out of scope);
* the `int16` surface-reflectance raster and the BRDF kernel weights become `ℤ`
  (the embedding does not model 16-bit wrap-around, which the data never
  exercises);
* the per-call mutable state (the raster row, the 18-slot output vector and the
  quality-code out-parameter) is threaded explicitly through the functions;
* the two external collaborators `getClosestCls` and `CalculateANratio`, and
  the two header constants `PUREPIX_thredhold` and `HIS_BIN`, live in a record
  `Ext` of oracles; they are not part of the translated source.
-/

namespace S2Albedo

/-- Truncation of a rational toward zero, the semantics of a C cast from
`double` to an integer type. -/
def trunc0 (x : ℚ) : ℤ := if 0 ≤ x then ⌊x⌋ else ⌈x⌉

/-- The C expression `(int16)(x + 0.5)` used at lines 169-171 to round the
resolved BRDF kernel weights: add one half, then truncate toward zero. -/
def c_round (x : ℚ) : ℤ := trunc0 (x + 1/2)

/-- Pointwise update of an output vector, the effect of one C array store. -/
def updF (o : ℕ → ℚ) (j : ℕ) (v : ℚ) : ℕ → ℚ := fun k => if k = j then v else o k

/-- Instrument identity. Modelled from the spec: the header defining the
instrument enumeration is not under `src/`; §3 lists two legacy multispectral
instruments, one operational-land-imager instrument (`_OLI_` in the code) and
one multispectral-imager instrument (`MSI`), and the selection code treats
every value other than `_OLI_` and `MSI` alike, so one extra constructor
stands for any unrecognized value. -/
inductive Instr
  | TM
  | ETM
  | OLI
  | MSI
  | unknown
deriving DecidableEq

/-- Coefficient table `ETM_coefficents_sw` (line 51). -/
def ETM_coefficents_sw : List ℚ := [0.3141, 0.000, 0.1607, 0.3694, 0.1160, 0.0456, -0.0057]

/-- Coefficient table `ETM_coefficents_vis` (line 52). -/
def ETM_coefficents_vis : List ℚ := [0.5610, 0.2404, 0.2012, 0.000, 0.000, 0.000, -0.0026]

/-- Coefficient table `ETM_coefficents_nir` (line 53). -/
def ETM_coefficents_nir : List ℚ := [0.000, 0.000, 0.000, 0.6668, 0.2861, 0.0572, -0.0042]

/-- Coefficient table `_TM_coefficents_sw` (line 55), the legacy shortwave
table that the pointer `TM_coefficents_sw` starts from and falls back to. -/
def legacy_TM_coefficents_sw : List ℚ := [0.3206, 0.000, 0.1572, 0.3666, 0.1162, 0.0457, -0.0063]

/-- Coefficient table `TM_coefficents_vis` (line 56), used for the visible
broadband product for every instrument. -/
def TM_coefficents_vis : List ℚ := [0.6000, 0.2204, 0.1828, 0.000, 0.000, 0.000, -0.0033]

/-- Coefficient table `TM_coefficents_nir` (line 57), used for the
near-infrared broadband product for every instrument. -/
def TM_coefficents_nir : List ℚ := [0.000, 0.000, 0.000, 0.6646, 0.2859, 0.0566, -0.0037]

/-- Coefficient table `LC8_n2b_lib` (lines 61-64). -/
def LC8_n2b_lib : List ℚ := [0.2453421, 0.050843, 0.1803945, 0.3080635, 0.1331847, 0.0521349, 0.0011052]

/-- Coefficient table `LC8_n2b_lib_snow` (lines 65-66). -/
def LC8_n2b_lib_snow : List ℚ := [1.22416, -0.431845, -0.3446429, 0.3367926, 0.1834496, 0.2554519, -0.0052154]

/-- Coefficient table `MSI_n2b_lib_sw` (line 69). -/
def MSI_n2b_lib_sw : List ℚ := [0.2687617, 0.0361839, 0.1501418, 0.3044542, 0.164433, 0.0356021, -0.0048673]

/-- Coefficient table `MSI_n2b_lib_sw_snow` (line 70). -/
def MSI_n2b_lib_sw_snow : List ℚ := [-0.1992158, 2.300191, -1.912122, 0.6714989, -2.272847, 1.934139, -0.0001144]

/-- The fixed band-index permutation `TMBandIndx` (line 46) mapping the
sensor's native band order to the canonical MODIS band order. -/
def TMBandIndx (i : ℕ) : ℕ := [2, 3, 0, 1, 5, 6].getD i 0

/-- The shortwave coefficient-table selection (lines 73 and 91-114): start
from the legacy TM table, switch on the instrument, and within the
operational-land-imager and multispectral-imager cases switch on the snow
flag. -/
def select_TM_coefficents_sw (instrument : Instr) (snow_flag : ℤ) : List ℚ :=
  if instrument = Instr.OLI then
    if snow_flag ≠ 0 then LC8_n2b_lib_snow else LC8_n2b_lib
  else if instrument = Instr.MSI then
    if snow_flag ≠ 0 then MSI_n2b_lib_sw_snow else MSI_n2b_lib_sw
  else legacy_TM_coefficents_sw

/-- The read-only sensor context `DIS_LANDSAT` restricted to the fields
`CalculateAlbedo` reads, plus the per-row reflectance raster
`OneRowlndSR`, which lines 204-208 of the source write in place (so it is
part of the state the function returns). -/
structure Sensor where
  instrument : Instr
  nbands : ℕ
  SZA : ℚ
  SAA : ℚ
  pix_VZA : ℚ
  pix_VAA : ℚ
  lndSR_ScaFct : ℚ
  SR_fillValue : ℤ
  Clsdata : ℤ → ℤ
  Cls_fillValue : ℤ
  actu_ncls : ℤ
  pure_thrsh : ℤ → ℚ
  BRDF_paras : ℤ → ℕ → ℕ → ℚ
  OneRowlndSR : ℕ → ℤ → ℤ

/-- Modelled from the spec: the external collaborators and header constants
that are not under `src/`.
* `getClosestCls` is the closest-class search of §6, a function of the class
  index and canonical band index (its class-distance data never changes during
  a pixel call); it returns `-1` when no substitute class exists, as the call
  site at line 161 tests.
* `CalculateANratio` is the anisotropy-ratio computation of §6, a function of
  the three rounded kernel weights and the four geometry angles, returning the
  white-sky and black-sky ratios. The source aborts the whole process when it
  fails (§5 calls this fatal by design), so the per-pixel model takes it
  total.
* `PUREPIX_thredhold` and `HIS_BIN` are the purity threshold and histogram
  bin constants of §6. -/
structure Ext where
  PUREPIX_thredhold : ℚ
  HIS_BIN : ℚ
  getClosestCls : ℤ → ℕ → ℤ
  CalculateANratio : ℤ → ℤ → ℤ → ℚ → ℚ → ℚ → ℚ → ℚ × ℚ

/-- Whether the BRDF parameter triple of a class at a canonical band is all
exactly zero, the `BRDFava_flg` test of lines 144-147. -/
abbrev brdfAllZero (sen : Sensor) (icls : ℤ) (ti : ℕ) : Prop :=
  sen.BRDF_paras icls ti 0 = 0 ∧ sen.BRDF_paras icls ti 1 = 0 ∧ sen.BRDF_paras icls ti 2 = 0

/-- The in-place clamp of lines 204-208: a negative raw reflectance becomes 0,
then a value at or above `1.2 / scale` becomes the truncation of
`0.99 / scale`. -/
def clampRefl (sf : ℚ) (r : ℤ) : ℤ :=
  let r1 : ℤ := if r < 0 then 0 else r
  if 1.2 / sf ≤ (r1 : ℚ) then trunc0 (0.99 / sf) else r1

/-- The per-band loop state: the (mutable) raster row, the output vector, the
six `tmpQA` tallies (lines 82, 133-134) and the `lndSR_flag` counter
(lines 75, 84). -/
@[ext] structure Acc where
  OneRowlndSR : ℕ → ℤ → ℤ
  out : ℕ → ℚ
  t0 : ℕ
  t1 : ℕ
  t2 : ℕ
  t3 : ℕ
  t4 : ℕ
  t5 : ℕ
  srFlag : ℕ

/-- The body of one band iteration after the BRDF class has been resolved to
`BRDFcls` (lines 169-249): round the kernel weights, run the
anisotropy-corrected computation with in-place clamping when the first rounded
weight is nonzero and the reflectance is not fill (lines 182-232, with the
negative-albedo Lambertian rescue at 219-230), otherwise the isotropic
fallback (lines 235-243), then the fill check (lines 245-249). -/
def processBand2 (ext : Ext) (sen : Sensor) (col BRDFcls : ℤ) (iband : ℕ) (a : Acc) : Acc :=
  let ti := TMBandIndx iband
  let w0 := c_round (sen.BRDF_paras BRDFcls ti 0)
  let w1 := c_round (sen.BRDF_paras BRDFcls ti 1)
  let w2 := c_round (sen.BRDF_paras BRDFcls ti 2)
  let r := a.OneRowlndSR iband col
  let a2 :=
    if ¬ r = sen.SR_fillValue ∧ ¬ w0 = 0 then
      let pr := ext.CalculateANratio w0 w1 w2 sen.SZA sen.SAA sen.pix_VZA sen.pix_VAA
      let r2 := clampRefl sen.lndSR_ScaFct r
      let bsa := sen.lndSR_ScaFct * (r2 : ℚ) * pr.2
      let wsa := sen.lndSR_ScaFct * (r2 : ℚ) * pr.1
      let refl2 : ℕ → ℤ → ℤ := fun k c => if k = iband ∧ c = col then r2 else a.OneRowlndSR k c
      if bsa < 0 ∨ wsa < 0 then
        { a with OneRowlndSR := refl2,
                 out := updF (updF a.out (iband * 2) (sen.lndSR_ScaFct * (r2 : ℚ)))
                             (iband * 2 + 1) (sen.lndSR_ScaFct * (r2 : ℚ)),
                 t3 := a.t3 + 1 }
      else
        { a with OneRowlndSR := refl2,
                 out := updF (updF a.out (iband * 2) bsa) (iband * 2 + 1) wsa }
    else a
  let r3 := a2.OneRowlndSR iband col
  let a3 :=
    if w0 = 0 ∧ ¬ r3 = sen.SR_fillValue then
      { a2 with out := updF (updF a2.out (iband * 2) (sen.lndSR_ScaFct * (r3 : ℚ)))
                            (iband * 2 + 1) (sen.lndSR_ScaFct * (r3 : ℚ)),
                t4 := a2.t4 + 1 }
    else a2
  let r4 := a3.OneRowlndSR iband col
  if r4 = sen.SR_fillValue then { a3 with t5 := a3.t5 + 1, srFlag := a3.srFlag + 1 }
  else a3

/-- One full band iteration (lines 136-249): the BRDF availability test and
class resolution with its confidence tallies (lines 143-167), failing the
whole pixel when the closest-class search returns `-1` (line 164), then the
resolved-band body. The error payload is the loop state at the moment of the
early `return FAILURE`. -/
def processBand (ext : Ext) (sen : Sensor) (col icls : ℤ) (iband : ℕ) (a : Acc) :
    Except Acc Acc :=
  let ti := TMBandIndx iband
  if brdfAllZero sen icls ti then
    let c := ext.getClosestCls icls ti
    if c = -1 then .error a
    else .ok (processBand2 ext sen col c iband { a with t2 := a.t2 + 1 })
  else
    .ok (processBand2 ext sen col icls iband
      { a with
          t0 := if ext.PUREPIX_thredhold * ext.HIS_BIN < sen.pure_thrsh icls then a.t0 + 1 else a.t0,
          t1 := if sen.pure_thrsh icls = ext.PUREPIX_thredhold * ext.HIS_BIN then a.t1 + 1 else a.t1 })

/-- The band loop of lines 136-261, processing bands `0, …, n-1` in order and
propagating the early failure of the closest-class search. -/
def runBands (ext : Ext) (sen : Sensor) (col icls : ℤ) : ℕ → Acc → Except Acc Acc
  | 0, a => .ok a
  | n + 1, a =>
    match runBands ext sen col icls n a with
    | .error e => .error e
    | .ok a1 => processBand ext sen col icls n a1

/-- The QA classification of lines 269-276: first matching rule wins, and when
no rule matches the previous quality code is left in place. -/
def classifyQA (t0 t1 t2 t3 : ℕ) (nbands : ℕ) (prior : ℤ) : ℤ :=
  if t0 = nbands then 0
  else if t0 + t1 = nbands then 1
  else if t2 + t0 + t1 = nbands then 2
  else if 0 < t3 then 3
  else prior

/-- The zero-initialization of the six broadband slots (lines 288-293). -/
def zeroBB (o : ℕ → ℚ) : ℕ → ℚ :=
  fun j => if j = 12 ∨ j = 13 ∨ j = 14 ∨ j = 15 ∨ j = 16 ∨ j = 17 then 0 else o j

/-- One iteration of the broadband accumulation loop (lines 295-314): six
sequential `+=` stores, each reading the vector as left by the previous
store. -/
def bbStep (sw : List ℚ) (i : ℕ) (o : ℕ → ℚ) : ℕ → ℚ :=
  let o1 := updF o 12 (o 12 + sw.getD i 0 * o (i * 2))
  let o2 := updF o1 13 (o1 13 + sw.getD i 0 * o1 (i * 2 + 1))
  let o3 := updF o2 14 (o2 14 + TM_coefficents_vis.getD i 0 * o2 (i * 2))
  let o4 := updF o3 15 (o3 15 + TM_coefficents_vis.getD i 0 * o3 (i * 2 + 1))
  let o5 := updF o4 16 (o4 16 + TM_coefficents_nir.getD i 0 * o4 (i * 2))
  updF o5 17 (o5 17 + TM_coefficents_nir.getD i 0 * o5 (i * 2 + 1))

/-- The broadband accumulation loop over bands `0, …, n-1`. -/
def bbAccum (sw : List ℚ) : ℕ → (ℕ → ℚ) → (ℕ → ℚ)
  | 0, o => o
  | n + 1, o => bbStep sw n (bbAccum sw n o)

/-- The intercept additions of lines 317-324. -/
def addIcpt (sw : List ℚ) (o : ℕ → ℚ) : ℕ → ℚ :=
  let o1 := updF o 12 (o 12 + sw.getD 6 0)
  let o2 := updF o1 13 (o1 13 + sw.getD 6 0)
  let o3 := updF o2 14 (o2 14 + TM_coefficents_vis.getD 6 0)
  let o4 := updF o3 15 (o3 15 + TM_coefficents_vis.getD 6 0)
  let o5 := updF o4 16 (o4 16 + TM_coefficents_nir.getD 6 0)
  updF o5 17 (o5 17 + TM_coefficents_nir.getD 6 0)

/-- The rescue loop of lines 329-339 (and its visible and near-infrared
copies): add `coefficient × rawReflectance × scale` to the two slots of one
broadband product, band by band. Note the source adds onto the existing slot
contents; it does not reset them. -/
def rescueLoop (c : List ℚ) (refl : ℕ → ℤ → ℤ) (col : ℤ) (sf : ℚ) (j0 j1 : ℕ) :
    ℕ → (ℕ → ℚ) → (ℕ → ℚ)
  | 0, o => o
  | i + 1, o =>
    let o' := rescueLoop c refl col sf j0 j1 i o
    let o1 := updF o' j0 (o' j0 + c.getD i 0 * (refl i col : ℚ) * sf)
    updF o1 j1 (o1 j1 + c.getD i 0 * (refl i col : ℚ) * sf)

/-- One whole rescue block: the loop plus the trailing intercept additions
(lines 342-343 and copies). -/
def rescueBB (c : List ℚ) (refl : ℕ → ℤ → ℤ) (col : ℤ) (sf : ℚ) (j0 j1 n : ℕ)
    (o : ℕ → ℚ) : ℕ → ℚ :=
  let o' := rescueLoop c refl col sf j0 j1 n o
  let o1 := updF o' j0 (o' j0 + c.getD 6 0)
  updF o1 j1 (o1 j1 + c.getD 6 0)

/-- The whole broadband aggregation of lines 286-387: zero the six slots,
accumulate, add intercepts, then run the three conditional rescues in source
order, each overwriting the quality code with 4 when it fires. Returns the
final output vector and quality code. -/
def broadband (sw : List ℚ) (refl : ℕ → ℤ → ℤ) (col : ℤ) (sf : ℚ) (n : ℕ) (qa1 : ℤ)
    (o : ℕ → ℚ) : (ℕ → ℚ) × ℤ :=
  let o0 := addIcpt sw (bbAccum sw n (zeroBB o))
  let p1 := if o0 12 ≤ 0 ∨ o0 13 ≤ 0 then (rescueBB sw refl col sf 12 13 n o0, (4 : ℤ))
            else (o0, qa1)
  let p2 := if p1.1 14 ≤ 0 ∨ p1.1 15 ≤ 0 then
              (rescueBB TM_coefficents_vis refl col sf 14 15 n p1.1, (4 : ℤ))
            else p1
  if p2.1 16 ≤ 0 ∨ p2.1 17 ≤ 0 then
    (rescueBB TM_coefficents_nir refl col sf 16 17 n p2.1, (4 : ℤ))
  else p2

/-- Outcome of a call to `CalculateAlbedo` (`SUCCESS` / `FAILURE`). -/
inductive Status
  | success
  | failure
deriving DecidableEq

/-- Everything a call to `CalculateAlbedo` leaves behind: the sensor (whose
raster row the call may have clamped in place), the caller's output vector,
the quality-code out-parameter, and the return status. -/
structure PixResult where
  sensor : Sensor
  lndPixAlbedo : ℕ → ℚ
  QA : ℤ
  ret : Status

/-- The fresh per-call loop state: the sensor's raster row, the caller's
output vector, and the zero-initialized tallies and fill counter
(lines 84, 133-134). -/
def mkAcc (sensor : Sensor) (lndPixAlbedo : ℕ → ℚ) : Acc :=
  { OneRowlndSR := sensor.OneRowlndSR, out := lndPixAlbedo,
    t0 := 0, t1 := 0, t2 := 0, t3 := 0, t4 := 0, t5 := 0, srFlag := 0 }

/-- The function `CalculateAlbedo` (lines 33-390): coefficient selection,
class validation (lines 116-119), the band loop, the any-band-fill failure
(lines 263-267), QA classification and broadband aggregation. The unused
`row` argument is kept to mirror the source signature. -/
def CalculateAlbedo (ext : Ext) (sensor : Sensor) (lndPixAlbedo : ℕ → ℚ) (row col : ℤ)
    (QA : ℤ) (snow_flag : ℤ) : PixResult :=
  let TMsw := select_TM_coefficents_sw sensor.instrument snow_flag
  let icls := sensor.Clsdata col
  if icls = sensor.Cls_fillValue ∨ sensor.actu_ncls < icls ∨ icls < 0 then
    { sensor := sensor, lndPixAlbedo := lndPixAlbedo, QA := QA, ret := .failure }
  else
    match runBands ext sensor col icls sensor.nbands (mkAcc sensor lndPixAlbedo) with
    | .error a =>
      { sensor := { sensor with OneRowlndSR := a.OneRowlndSR },
        lndPixAlbedo := a.out, QA := QA, ret := .failure }
    | .ok a =>
      if a.srFlag ≠ 0 then
        { sensor := { sensor with OneRowlndSR := a.OneRowlndSR },
          lndPixAlbedo := a.out, QA := -1, ret := .failure }
      else
        let qa1 := classifyQA a.t0 a.t1 a.t2 a.t3 sensor.nbands QA
        let bb := broadband TMsw a.OneRowlndSR col sensor.lndSR_ScaFct sensor.nbands qa1 a.out
        { sensor := { sensor with OneRowlndSR := a.OneRowlndSR },
          lndPixAlbedo := bb.1, QA := bb.2, ret := .success }



def resolvedCls (ext : Ext) (sen : Sensor) (icls : ℤ) (ti : ℕ) : ℤ :=
  if brdfAllZero sen icls ti then ext.getClosestCls icls ti else icls

def bandW0 (sen : Sensor) (cc : ℤ) (ti : ℕ) : ℤ := c_round (sen.BRDF_paras cc ti 0)

def bandANR (ext : Ext) (sen : Sensor) (cc : ℤ) (ti : ℕ) : ℚ × ℚ :=
  ext.CalculateANratio (bandW0 sen cc ti) (c_round (sen.BRDF_paras cc ti 1))
    (c_round (sen.BRDF_paras cc ti 2)) sen.SZA sen.SAA sen.pix_VZA sen.pix_VAA

def bandNewR (sen : Sensor) (cc : ℤ) (ti : ℕ) (r : ℤ) : ℤ :=
  if ¬ r = sen.SR_fillValue ∧ ¬ bandW0 sen cc ti = 0 then clampRefl sen.lndSR_ScaFct r else r

def bandSlotVals (ext : Ext) (sen : Sensor) (cc : ℤ) (ti : ℕ) (r : ℤ) : Option (ℚ × ℚ) :=
  if ¬ r = sen.SR_fillValue ∧ ¬ bandW0 sen cc ti = 0 then
    if sen.lndSR_ScaFct * (clampRefl sen.lndSR_ScaFct r : ℚ) * (bandANR ext sen cc ti).2 < 0 ∨
       sen.lndSR_ScaFct * (clampRefl sen.lndSR_ScaFct r : ℚ) * (bandANR ext sen cc ti).1 < 0 then
      some (sen.lndSR_ScaFct * (clampRefl sen.lndSR_ScaFct r : ℚ),
            sen.lndSR_ScaFct * (clampRefl sen.lndSR_ScaFct r : ℚ))
    else some (sen.lndSR_ScaFct * (clampRefl sen.lndSR_ScaFct r : ℚ) * (bandANR ext sen cc ti).2,
               sen.lndSR_ScaFct * (clampRefl sen.lndSR_ScaFct r : ℚ) * (bandANR ext sen cc ti).1)
  else if bandW0 sen cc ti = 0 ∧ ¬ r = sen.SR_fillValue then
    some (sen.lndSR_ScaFct * (r : ℚ), sen.lndSR_ScaFct * (r : ℚ))
  else none

def bandD3 (ext : Ext) (sen : Sensor) (cc : ℤ) (ti : ℕ) (r : ℤ) : ℕ :=
  if ¬ r = sen.SR_fillValue ∧ ¬ bandW0 sen cc ti = 0 then
    if sen.lndSR_ScaFct * (clampRefl sen.lndSR_ScaFct r : ℚ) * (bandANR ext sen cc ti).2 < 0 ∨
       sen.lndSR_ScaFct * (clampRefl sen.lndSR_ScaFct r : ℚ) * (bandANR ext sen cc ti).1 < 0 then 1
    else 0
  else 0

def bandD4 (sen : Sensor) (cc : ℤ) (ti : ℕ) (r : ℤ) : ℕ :=
  if bandW0 sen cc ti = 0 ∧ ¬ r = sen.SR_fillValue then 1 else 0

def bandD5 (sen : Sensor) (cc : ℤ) (ti : ℕ) (r : ℤ) : ℕ :=
  if bandNewR sen cc ti r = sen.SR_fillValue then 1 else 0

theorem refl_upd_self (f : ℕ → ℤ → ℤ) (iband : ℕ) (col : ℤ) (v : ℤ)
    (hv : v = f iband col) :
    (fun k c => if k = iband ∧ c = col then v else f k c) = f := by
  funext k c
  split_ifs with h
  · obtain ⟨h1, h2⟩ := h
    rw [hv, h1, h2]
  · rfl

theorem processBand2_eq (ext : Ext) (sen : Sensor) (col cc : ℤ) (iband : ℕ) (a : Acc) :
    processBand2 ext sen col cc iband a =
      { OneRowlndSR := fun k c => if k = iband ∧ c = col then
          bandNewR sen cc (TMBandIndx iband) (a.OneRowlndSR iband col) else a.OneRowlndSR k c,
        out := (bandSlotVals ext sen cc (TMBandIndx iband) (a.OneRowlndSR iband col)).elim a.out
          (fun vw => updF (updF a.out (iband * 2) vw.1) (iband * 2 + 1) vw.2),
        t0 := a.t0, t1 := a.t1, t2 := a.t2,
        t3 := a.t3 + bandD3 ext sen cc (TMBandIndx iband) (a.OneRowlndSR iband col),
        t4 := a.t4 + bandD4 sen cc (TMBandIndx iband) (a.OneRowlndSR iband col),
        t5 := a.t5 + bandD5 sen cc (TMBandIndx iband) (a.OneRowlndSR iband col),
        srFlag := a.srFlag + bandD5 sen cc (TMBandIndx iband) (a.OneRowlndSR iband col) } := by
  unfold processBand2 bandD3 bandD5 bandSlotVals bandD4 bandNewR bandANR bandW0
  simp only
  by_cases hF : a.OneRowlndSR iband col = sen.SR_fillValue
  · simp [hF, refl_upd_self a.OneRowlndSR iband col sen.SR_fillValue hF.symm]
  · by_cases hW : c_round (sen.BRDF_paras cc (TMBandIndx iband) 0) = 0
    · simp [hF, hW, refl_upd_self a.OneRowlndSR iband col _ rfl]
    · by_cases hN : sen.lndSR_ScaFct * (clampRefl sen.lndSR_ScaFct (a.OneRowlndSR iband col) : ℚ) *
          (ext.CalculateANratio (c_round (sen.BRDF_paras cc (TMBandIndx iband) 0))
            (c_round (sen.BRDF_paras cc (TMBandIndx iband) 1))
            (c_round (sen.BRDF_paras cc (TMBandIndx iband) 2))
            sen.SZA sen.SAA sen.pix_VZA sen.pix_VAA).2 < 0 ∨
          sen.lndSR_ScaFct * (clampRefl sen.lndSR_ScaFct (a.OneRowlndSR iband col) : ℚ) *
          (ext.CalculateANratio (c_round (sen.BRDF_paras cc (TMBandIndx iband) 0))
            (c_round (sen.BRDF_paras cc (TMBandIndx iband) 1))
            (c_round (sen.BRDF_paras cc (TMBandIndx iband) 2))
            sen.SZA sen.SAA sen.pix_VZA sen.pix_VAA).1 < 0
      · simp only [hF, hW, hN, not_false_iff, not_false_eq_true, and_self, true_and, and_true,
          false_and, and_false, if_true, if_false, ite_true, ite_false, Option.elim,
          eq_self_iff_true, iff_true]
        split_ifs with h5 <;> rfl
      · simp only [hF, hW, hN, not_false_iff, not_false_eq_true, and_self, true_and, and_true,
          false_and, and_false, if_true, if_false, ite_true, ite_false, Option.elim,
          eq_self_iff_true, iff_true]
        split_ifs with h5 <;> rfl



/-- Resolution failure of one band: degenerate BRDF triple and no substitute class. -/
abbrev bandFails (ext : Ext) (sen : Sensor) (icls : ℤ) (b : ℕ) : Prop :=
  brdfAllZero sen icls (TMBandIndx b) ∧ ext.getClosestCls icls (TMBandIndx b) = -1

/-- The class band `b` resolves to. -/
def bandCC (ext : Ext) (sen : Sensor) (icls : ℤ) (b : ℕ) : ℤ :=
  resolvedCls ext sen icls (TMBandIndx b)

/-- High-confidence tally increment of band `b`. -/
def d0 (ext : Ext) (sen : Sensor) (icls : ℤ) (b : ℕ) : ℕ :=
  if ¬ brdfAllZero sen icls (TMBandIndx b) ∧
     ext.PUREPIX_thredhold * ext.HIS_BIN < sen.pure_thrsh icls then 1 else 0

/-- Marginal-confidence tally increment of band `b`. -/
def d1 (ext : Ext) (sen : Sensor) (icls : ℤ) (b : ℕ) : ℕ :=
  if ¬ brdfAllZero sen icls (TMBandIndx b) ∧
     sen.pure_thrsh icls = ext.PUREPIX_thredhold * ext.HIS_BIN then 1 else 0

/-- Borrowed-class tally increment of band `b`. -/
def d2 (sen : Sensor) (icls : ℤ) (b : ℕ) : ℕ :=
  if brdfAllZero sen icls (TMBandIndx b) then 1 else 0

/-- Raster value band `b` leaves at its cell, as a function of the value found there. -/
def newR (ext : Ext) (sen : Sensor) (icls : ℤ) (b : ℕ) (r : ℤ) : ℤ :=
  bandNewR sen (bandCC ext sen icls b) (TMBandIndx b) r

/-- Narrow-band values band `b` writes, as a function of the raster value found there. -/
def slotVals (ext : Ext) (sen : Sensor) (icls : ℤ) (b : ℕ) (r : ℤ) : Option (ℚ × ℚ) :=
  bandSlotVals ext sen (bandCC ext sen icls b) (TMBandIndx b) r

/-- Negative-anisotropy tally increment of band `b`. -/
def d3 (ext : Ext) (sen : Sensor) (icls : ℤ) (b : ℕ) (r : ℤ) : ℕ :=
  bandD3 ext sen (bandCC ext sen icls b) (TMBandIndx b) r

/-- Isotropic-fallback tally increment of band `b`. -/
def d4 (ext : Ext) (sen : Sensor) (icls : ℤ) (b : ℕ) (r : ℤ) : ℕ :=
  bandD4 sen (bandCC ext sen icls b) (TMBandIndx b) r

/-- Fill tally increment of band `b`. -/
def d5 (ext : Ext) (sen : Sensor) (icls : ℤ) (b : ℕ) (r : ℤ) : ℕ :=
  bandD5 sen (bandCC ext sen icls b) (TMBandIndx b) r

theorem elim_upd_other (ov : Option (ℚ × ℚ)) (o : ℕ → ℚ) (i j : ℕ)
    (h0 : ¬ j = i * 2) (h1 : ¬ j = i * 2 + 1) :
    (ov.elim o (fun vw => updF (updF o (i * 2) vw.1) (i * 2 + 1) vw.2)) j = o j := by
  cases ov with
  | none => rfl
  | some vw => simp [updF, h0, h1]

theorem upd2_at0 (o : ℕ → ℚ) (i : ℕ) (v w : ℚ) :
    updF (updF o (i * 2) v) (i * 2 + 1) w (i * 2) = v := by
  unfold updF
  rw [if_neg (by omega), if_pos rfl]

theorem upd2_at1 (o : ℕ → ℚ) (i : ℕ) (v w : ℚ) :
    updF (updF o (i * 2) v) (i * 2 + 1) w (i * 2 + 1) = w := by
  unfold updF
  rw [if_pos rfl]

theorem runBands_char (ext : Ext) (sen : Sensor) (col icls : ℤ) (n : ℕ) (a : Acc)
    (hok : ∀ b, b < n → ¬ bandFails ext sen icls b) :
    ∃ a', runBands ext sen col icls n a = .ok a' ∧
      (∀ k c, ¬ (k < n ∧ c = col) → a'.OneRowlndSR k c = a.OneRowlndSR k c) ∧
      (∀ b, b < n → a'.OneRowlndSR b col = newR ext sen icls b (a.OneRowlndSR b col)) ∧
      (∀ j, (∀ b, b < n → ¬ j = b * 2 ∧ ¬ j = b * 2 + 1) → a'.out j = a.out j) ∧
      (∀ b, b < n → (slotVals ext sen icls b (a.OneRowlndSR b col)).elim
          (a'.out (b * 2) = a.out (b * 2) ∧ a'.out (b * 2 + 1) = a.out (b * 2 + 1))
          (fun vw => a'.out (b * 2) = vw.1 ∧ a'.out (b * 2 + 1) = vw.2)) ∧
      a'.t0 = a.t0 + Finset.sum (Finset.range n) (fun b => d0 ext sen icls b) ∧
      a'.t1 = a.t1 + Finset.sum (Finset.range n) (fun b => d1 ext sen icls b) ∧
      a'.t2 = a.t2 + Finset.sum (Finset.range n) (fun b => d2 sen icls b) ∧
      a'.t3 = a.t3 + Finset.sum (Finset.range n) (fun b => d3 ext sen icls b (a.OneRowlndSR b col)) ∧
      a'.t4 = a.t4 + Finset.sum (Finset.range n) (fun b => d4 ext sen icls b (a.OneRowlndSR b col)) ∧
      a'.srFlag = a.srFlag + Finset.sum (Finset.range n) (fun b => d5 ext sen icls b (a.OneRowlndSR b col)) := by
  induction n with
  | zero =>
    refine ⟨a, rfl, ?_, ?_, ?_, ?_, ?_, ?_, ?_, ?_, ?_, ?_⟩ <;> simp
  | succ n ih =>
    obtain ⟨a1, hrun, hfr, hrv, hof, hsv, h0, h1, h2, h3, h4, h5⟩ :=
      ih (fun b hb => hok b (Nat.lt_succ_of_lt hb))
    have hnf := hok n (Nat.lt_succ_self n)
    have hr1 : a1.OneRowlndSR n col = a.OneRowlndSR n col := by
      refine hfr n col ?_
      simp
    have main : ∀ (abump : Acc) (CC : ℤ) (dt0 dt1 dt2 : ℕ),
        abump.OneRowlndSR = a1.OneRowlndSR → abump.out = a1.out →
        abump.t0 = a1.t0 + dt0 → abump.t1 = a1.t1 + dt1 → abump.t2 = a1.t2 + dt2 →
        abump.t3 = a1.t3 → abump.t4 = a1.t4 → abump.srFlag = a1.srFlag →
        CC = bandCC ext sen icls n →
        ∀ a', a' = processBand2 ext sen col CC n abump →
        (∀ k c, ¬ (k < n + 1 ∧ c = col) → a'.OneRowlndSR k c = a.OneRowlndSR k c) ∧
        (∀ b, b < n + 1 → a'.OneRowlndSR b col = newR ext sen icls b (a.OneRowlndSR b col)) ∧
        (∀ j, (∀ b, b < n + 1 → ¬ j = b * 2 ∧ ¬ j = b * 2 + 1) → a'.out j = a.out j) ∧
        (∀ b, b < n + 1 → (slotVals ext sen icls b (a.OneRowlndSR b col)).elim
            (a'.out (b * 2) = a.out (b * 2) ∧ a'.out (b * 2 + 1) = a.out (b * 2 + 1))
            (fun vw => a'.out (b * 2) = vw.1 ∧ a'.out (b * 2 + 1) = vw.2)) ∧
        a'.t0 = a1.t0 + dt0 ∧ a'.t1 = a1.t1 + dt1 ∧ a'.t2 = a1.t2 + dt2 ∧
        a'.t3 = a.t3 + Finset.sum (Finset.range (n + 1)) (fun b => d3 ext sen icls b (a.OneRowlndSR b col)) ∧
        a'.t4 = a.t4 + Finset.sum (Finset.range (n + 1)) (fun b => d4 ext sen icls b (a.OneRowlndSR b col)) ∧
        a'.srFlag = a.srFlag + Finset.sum (Finset.range (n + 1)) (fun b => d5 ext sen icls b (a.OneRowlndSR b col)) := by
      intro abump CC dt0 dt1 dt2 hbr hbo ht0 ht1 ht2 ht3 ht4 htsr hcc a' ha'
      have hbr1 : abump.OneRowlndSR n col = a.OneRowlndSR n col := by rw [hbr, hr1]
      rw [processBand2_eq] at ha'
      constructor
      · intro k c hkc
        have hkn : ¬ (k = n ∧ c = col) := by
          intro h
          exact hkc ⟨by omega, h.2⟩
        rw [ha']
        simp only [hbr]
        rw [if_neg hkn]
        exact hfr k c (by intro h; exact hkc ⟨by omega, h.2⟩)
      constructor
      · intro b hb
        rcases Nat.lt_succ_iff_lt_or_eq.mp hb with hbn | hbe
        · have hbne : ¬ b = n := by omega
          rw [ha']
          simp only [hbr]
          simp [hbne]
          exact hrv b hbn
        · subst hbe
          rw [ha']
          simp only [hbr]
          simp [hr1, hcc, newR]
      constructor
      · intro j hj
        have hn2 := hj n (Nat.lt_succ_self n)
        rw [ha']
        simp only [hbo]
        rw [elim_upd_other _ _ _ _ hn2.1 hn2.2]
        exact hof j (fun b hb => hj b (by omega))
      constructor
      · intro b hb
        rcases Nat.lt_succ_iff_lt_or_eq.mp hb with hbn | hbe
        · have e0 : a'.out (b * 2) = a1.out (b * 2) := by
            rw [ha']
            simp only [hbo]
            exact elim_upd_other _ _ _ _ (by omega) (by omega)
          have e1 : a'.out (b * 2 + 1) = a1.out (b * 2 + 1) := by
            rw [ha']
            simp only [hbo]
            exact elim_upd_other _ _ _ _ (by omega) (by omega)
          have hprev := hsv b hbn
          cases hov : slotVals ext sen icls b (a.OneRowlndSR b col) with
          | none =>
            rw [hov] at hprev
            exact ⟨e0.trans hprev.1, e1.trans hprev.2⟩
          | some vw =>
            rw [hov] at hprev
            exact ⟨e0.trans hprev.1, e1.trans hprev.2⟩
        · subst hbe
          have hovn : slotVals ext sen icls b (a.OneRowlndSR b col) =
              bandSlotVals ext sen CC (TMBandIndx b) (abump.OneRowlndSR b col) := by
            rw [hbr1, hcc]
            rfl
          rw [ha']
          simp only [hbo]
          cases hov : bandSlotVals ext sen CC (TMBandIndx b) (abump.OneRowlndSR b col) with
          | none =>
            rw [hovn, hov]
            simp only [Option.elim]
            constructor
            · exact hof (b * 2) (fun k hk => by constructor <;> omega)
            · exact hof (b * 2 + 1) (fun k hk => by constructor <;> omega)
          | some vw =>
            rw [hovn, hov]
            simp only [Option.elim, hbo]
            exact ⟨upd2_at0 _ _ _ _, upd2_at1 _ _ _ _⟩
      refine ⟨by rw [ha']; exact ht0, by rw [ha']; exact ht1, by rw [ha']; exact ht2, ?_, ?_, ?_⟩
      · have hd : bandD3 ext sen CC (TMBandIndx n) (abump.OneRowlndSR n col) =
            d3 ext sen icls n (a.OneRowlndSR n col) := by
          rw [hbr1, hcc]
          rfl
        have hgoal : a'.t3 = abump.t3 + bandD3 ext sen CC (TMBandIndx n) (abump.OneRowlndSR n col) := by
          rw [ha']
        have hs := Finset.sum_range_succ (fun b => d3 ext sen icls b (a.OneRowlndSR b col)) n
        omega
      · have hd : bandD4 sen CC (TMBandIndx n) (abump.OneRowlndSR n col) =
            d4 ext sen icls n (a.OneRowlndSR n col) := by
          rw [hbr1, hcc]
          rfl
        have hgoal : a'.t4 = abump.t4 + bandD4 sen CC (TMBandIndx n) (abump.OneRowlndSR n col) := by
          rw [ha']
        have hs := Finset.sum_range_succ (fun b => d4 ext sen icls b (a.OneRowlndSR b col)) n
        omega
      · have hd : bandD5 sen CC (TMBandIndx n) (abump.OneRowlndSR n col) =
            d5 ext sen icls n (a.OneRowlndSR n col) := by
          rw [hbr1, hcc]
          rfl
        have hgoal : a'.srFlag = abump.srFlag + bandD5 sen CC (TMBandIndx n) (abump.OneRowlndSR n col) := by
          rw [ha']
        have hs := Finset.sum_range_succ (fun b => d5 ext sen icls b (a.OneRowlndSR b col)) n
        omega
    by_cases hz : brdfAllZero sen icls (TMBandIndx n)
    · have hc : ¬ ext.getClosestCls icls (TMBandIndx n) = -1 := by
        intro hcc
        exact hnf ⟨hz, hcc⟩
      have hcceq : ext.getClosestCls icls (TMBandIndx n) = bandCC ext sen icls n := by
        unfold bandCC resolvedCls
        rw [if_pos hz]
      have hstep : runBands ext sen col icls (n + 1) a =
          .ok (processBand2 ext sen col (ext.getClosestCls icls (TMBandIndx n)) n
            { a1 with t2 := a1.t2 + 1 }) := by
        unfold runBands
        rw [hrun]
        simp [processBand, hz, hc]
      obtain ⟨c1, c2, c3, c4, c5, c6, c7, c8, c9, c10⟩ :=
        main { a1 with t2 := a1.t2 + 1 } (ext.getClosestCls icls (TMBandIndx n))
          (d0 ext sen icls n) (d1 ext sen icls n) (d2 sen icls n)
          rfl rfl (by simp [d0, hz]) (by simp [d1, hz])
          (by show a1.t2 + 1 = a1.t2 + d2 sen icls n
              unfold d2
              rw [if_pos hz]) rfl rfl rfl hcceq _ rfl
      refine ⟨_, hstep, c1, c2, c3, c4, ?_, ?_, ?_, c8, c9, c10⟩
      · have hs := Finset.sum_range_succ (fun b => d0 ext sen icls b) n
        omega
      · have hs := Finset.sum_range_succ (fun b => d1 ext sen icls b) n
        omega
      · have hs := Finset.sum_range_succ (fun b => d2 sen icls b) n
        omega
    · have hcceq : icls = bandCC ext sen icls n := by
        unfold bandCC resolvedCls
        rw [if_neg hz]
      have hstep : runBands ext sen col icls (n + 1) a =
          .ok (processBand2 ext sen col icls n
            { a1 with
                t0 := if ext.PUREPIX_thredhold * ext.HIS_BIN < sen.pure_thrsh icls then a1.t0 + 1 else a1.t0,
                t1 := if sen.pure_thrsh icls = ext.PUREPIX_thredhold * ext.HIS_BIN then a1.t1 + 1 else a1.t1 }) := by
        unfold runBands
        rw [hrun]
        simp [processBand, hz]
      obtain ⟨c1, c2, c3, c4, c5, c6, c7, c8, c9, c10⟩ :=
        main { a1 with
            t0 := if ext.PUREPIX_thredhold * ext.HIS_BIN < sen.pure_thrsh icls then a1.t0 + 1 else a1.t0,
            t1 := if sen.pure_thrsh icls = ext.PUREPIX_thredhold * ext.HIS_BIN then a1.t1 + 1 else a1.t1 }
          icls (d0 ext sen icls n) (d1 ext sen icls n) (d2 sen icls n)
          rfl rfl
          (by by_cases hp : ext.PUREPIX_thredhold * ext.HIS_BIN < sen.pure_thrsh icls <;>
                simp [d0, hz, hp])
          (by by_cases hp : sen.pure_thrsh icls = ext.PUREPIX_thredhold * ext.HIS_BIN <;>
                simp [d1, hz, hp])
          (by simp [d2, hz]) rfl rfl rfl hcceq _ rfl
      refine ⟨_, hstep, c1, c2, c3, c4, ?_, ?_, ?_, c8, c9, c10⟩
      · have hs := Finset.sum_range_succ (fun b => d0 ext sen icls b) n
        omega
      · have hs := Finset.sum_range_succ (fun b => d1 ext sen icls b) n
        omega
      · have hs := Finset.sum_range_succ (fun b => d2 sen icls b) n
        omega



/-- A band whose resolution fails turns the loop state into an immediate error
with the state unchanged. -/
theorem processBand_of_fails (ext : Ext) (sen : Sensor) (col icls : ℤ) (iband : ℕ) (a : Acc)
    (hf : bandFails ext sen icls iband) :
    processBand ext sen col icls iband a = .error a := by
  unfold processBand
  simp only
  rw [if_pos hf.1, if_pos hf.2]

/-- An error from one band means its resolution failed and the payload is the
incoming state. -/
theorem processBand_error_inv (ext : Ext) (sen : Sensor) (col icls : ℤ) (iband : ℕ) (a e : Acc)
    (h : processBand ext sen col icls iband a = .error e) :
    e = a ∧ bandFails ext sen icls iband := by
  unfold processBand at h
  simp only at h
  split_ifs at h with hz hc
  refine ⟨?_, hz, hc⟩
  injection h with h'
  exact h'.symm

/-- A successful loop run had no resolution failure at any band. -/
theorem runBands_ok_no_fail (ext : Ext) (sen : Sensor) (col icls : ℤ) (n : ℕ) (a a1 : Acc)
    (h : runBands ext sen col icls n a = .ok a1) :
    ∀ b, b < n → ¬ bandFails ext sen icls b := by
  induction n generalizing a1 with
  | zero =>
    intro b hb
    omega
  | succ n ih =>
    cases hr : runBands ext sen col icls n a with
    | error e =>
      have hstep : runBands ext sen col icls (n + 1) a = .error e := by
        unfold runBands
        rw [hr]
      rw [hstep] at h
      simp at h
    | ok a2 =>
      have hstep : runBands ext sen col icls (n + 1) a = processBand ext sen col icls n a2 := by
        unfold runBands
        rw [hr]
      rw [hstep] at h
      intro b hb
      rcases Nat.lt_succ_iff_lt_or_eq.mp hb with hbn | hbe
      · exact ih a2 hr b hbn
      · subst hbe
        intro hf
        rw [processBand_of_fails ext sen col icls b a2 hf] at h
        simp at h
/-- Errors persist as the loop runs further. -/
theorem runBands_error_mono (ext : Ext) (sen : Sensor) (col icls : ℤ) (n : ℕ) (a e : Acc)
    (h : runBands ext sen col icls n a = .error e) :
    ∀ m, n ≤ m → runBands ext sen col icls m a = .error e := by
  intro m hm
  induction m with
  | zero =>
    have hn0 : n = 0 := Nat.le_zero.mp hm
    subst hn0
    exact h
  | succ m ih =>
    by_cases hnm : n ≤ m
    · have he := ih hnm
      unfold runBands
      rw [he]
    · have hne : n = m + 1 := by omega
      subst hne
      exact h

/-- A failing band makes the whole loop error with the state reached just
before that band. -/
theorem runBands_err_of (ext : Ext) (sen : Sensor) (col icls : ℤ) (n b : ℕ) (a : Acc)
    (hb : b < n)
    (hpre : ∀ k, k < b → ¬ bandFails ext sen icls k)
    (hfail : bandFails ext sen icls b) :
    ∃ a1, runBands ext sen col icls b a = .ok a1 ∧
      runBands ext sen col icls n a = .error a1 := by
  obtain ⟨a1, hrun, -⟩ := runBands_char ext sen col icls b a hpre
  refine ⟨a1, hrun, ?_⟩
  have hb1 : runBands ext sen col icls (b + 1) a = .error a1 := by
    unfold runBands
    rw [hrun]
    exact processBand_of_fails ext sen col icls b a1 hfail
  exact runBands_error_mono ext sen col icls (b + 1) a a1 hb1 n hb

/-- Inversion of a loop error: there is a first failing band, and the payload
is the state after the bands before it. -/
theorem runBands_error_inv (ext : Ext) (sen : Sensor) (col icls : ℤ) (n : ℕ) (a e : Acc)
    (h : runBands ext sen col icls n a = .error e) :
    ∃ b, b < n ∧ (∀ k, k < b → ¬ bandFails ext sen icls k) ∧ bandFails ext sen icls b ∧
      runBands ext sen col icls b a = .ok e := by
  induction n with
  | zero =>
    simp [runBands] at h
  | succ n ih =>
    cases hr : runBands ext sen col icls n a with
    | error e' =>
      have hstep : runBands ext sen col icls (n + 1) a = .error e' := by
        unfold runBands
        rw [hr]
      rw [hstep] at h
      injection h with h'
      subst h'
      obtain ⟨b, hb, hpre, hf, hrb⟩ := ih hr
      exact ⟨b, by omega, hpre, hf, hrb⟩
    | ok a1 =>
      have hstep : runBands ext sen col icls (n + 1) a = processBand ext sen col icls n a1 := by
        unfold runBands
        rw [hr]
      rw [hstep] at h
      obtain ⟨he, hf⟩ := processBand_error_inv ext sen col icls n a1 e h
      subst he
      exact ⟨n, Nat.lt_succ_self n, runBands_ok_no_fail ext sen col icls n a e hr, hf, hr⟩



theorem trunc0_nonneg (x : ℚ) (hx : 0 ≤ x) : 0 ≤ trunc0 x := by
  unfold trunc0
  rw [if_pos hx]
  exact Int.floor_nonneg.mpr hx

theorem trunc0_cast_le (x : ℚ) (hx : 0 ≤ x) : (trunc0 x : ℚ) ≤ x := by
  unfold trunc0
  rw [if_pos hx]
  exact Int.floor_le x

theorem trunc0_nonpos (x : ℚ) (hx : x ≤ 0) : trunc0 x ≤ 0 := by
  unfold trunc0
  split_ifs with h
  · have hx0 : x = 0 := le_antisymm hx h
    simp [hx0]
  · exact Int.ceil_le.mpr (by exact_mod_cast hx)

/-- Unfolding equation for the clamp. -/
theorem clampRefl_eq (sf : ℚ) (r : ℤ) :
    clampRefl sf r = if 1.2 / sf ≤ (((if r < 0 then 0 else r) : ℤ) : ℚ) then trunc0 (0.99 / sf)
      else (if r < 0 then 0 else r) := rfl

/-- With a positive scale factor the clamped reflectance is nonnegative. -/
theorem clampRefl_nonneg (sf : ℚ) (hsf : 0 < sf) (r : ℤ) : 0 ≤ clampRefl sf r := by
  rw [clampRefl_eq]
  split_ifs with h1 h2 h3
  · exact trunc0_nonneg _ (by positivity)
  · omega
  · exact trunc0_nonneg _ (by positivity)
  · omega

/-- With a positive scale factor the clamped reflectance stays strictly below
the saturation test threshold. -/
theorem clampRefl_lt (sf : ℚ) (hsf : 0 < sf) (r : ℤ) :
    ((clampRefl sf r : ℤ) : ℚ) < 1.2 / sf := by
  have hT : ((trunc0 (0.99 / sf) : ℤ) : ℚ) < 1.2 / sf := by
    calc ((trunc0 (0.99 / sf) : ℤ) : ℚ) ≤ 0.99 / sf := trunc0_cast_le _ (by positivity)
      _ < 1.2 / sf := by
        rw [div_lt_div_iff_of_pos_right hsf]
        norm_num
  rw [clampRefl_eq]
  split_ifs with h1 h2 h3
  · exact hT
  · exact lt_of_not_le h2
  · exact hT
  · exact lt_of_not_le h3

/-- Clamping is idempotent, for every scale factor. -/
theorem clampRefl_idem (sf : ℚ) (r : ℤ) : clampRefl sf (clampRefl sf r) = clampRefl sf r := by
  rw [clampRefl_eq sf r]
  by_cases hcap : 1.2 / sf ≤ (((if r < 0 then 0 else r) : ℤ) : ℚ)
  · rw [if_pos hcap, clampRefl_eq]
    by_cases hsf : 0 < sf
    · have hT0 : 0 ≤ trunc0 (0.99 / sf) := trunc0_nonneg _ (by positivity)
      rw [if_neg (by omega : ¬ trunc0 (0.99 / sf) < 0)]
      rw [if_neg ?_]
      push_neg
      calc ((trunc0 (0.99 / sf) : ℤ) : ℚ) ≤ 0.99 / sf := trunc0_cast_le _ (by positivity)
        _ < 1.2 / sf := by
          rw [div_lt_div_iff_of_pos_right hsf]
          norm_num
    · have h99 : (0.99 : ℚ) / sf ≤ 0 := by
        push_neg at hsf
        rcases lt_or_eq_of_le hsf with h | h
        · exact le_of_lt (div_neg_of_pos_of_neg (by norm_num) h)
        · rw [h, div_zero]
      have h12 : (1.2 : ℚ) / sf ≤ 0 := by
        push_neg at hsf
        rcases lt_or_eq_of_le hsf with h | h
        · exact le_of_lt (div_neg_of_pos_of_neg (by norm_num) h)
        · rw [h, div_zero]
      have hT : trunc0 (0.99 / sf) ≤ 0 := trunc0_nonpos _ h99
      have hinner : ((if trunc0 (0.99 / sf) < 0 then 0 else trunc0 (0.99 / sf)) : ℤ) = 0 := by
        split_ifs <;> omega
      rw [hinner]
      rw [if_pos (by rw [Int.cast_zero]; exact h12)]
  · rw [if_neg hcap, clampRefl_eq]
    have hr1 : (0 : ℤ) ≤ (if r < 0 then 0 else r) := by
      split_ifs <;> omega
    have hcollapse : ((if (if r < 0 then 0 else r : ℤ) < 0 then 0 else (if r < 0 then 0 else r)) : ℤ)
        = (if r < 0 then 0 else r) := by
      split_ifs <;> omega
    rw [hcollapse, if_neg hcap]



theorem updF_ne (o : ℕ → ℚ) (j : ℕ) (v : ℚ) (k : ℕ) (h : ¬ k = j) : updF o j v k = o k := by
  simp [updF, h]

theorem updF_at (o : ℕ → ℚ) (j : ℕ) (v : ℚ) : updF o j v j = v := by
  simp [updF]

theorem zeroBB_frame (o : ℕ → ℚ) (j : ℕ) (h : ¬ (12 ≤ j ∧ j ≤ 17)) : zeroBB o j = o j := by
  unfold zeroBB
  rw [if_neg (by omega)]

theorem bbStep_frame (sw : List ℚ) (i : ℕ) (o : ℕ → ℚ) (j : ℕ) (h : ¬ (12 ≤ j ∧ j ≤ 17)) :
    bbStep sw i o j = o j := by
  unfold bbStep
  rw [updF_ne _ _ _ _ (by omega), updF_ne _ _ _ _ (by omega), updF_ne _ _ _ _ (by omega),
    updF_ne _ _ _ _ (by omega), updF_ne _ _ _ _ (by omega), updF_ne _ _ _ _ (by omega)]

theorem bbAccum_frame (sw : List ℚ) (n : ℕ) (o : ℕ → ℚ) (j : ℕ) (h : ¬ (12 ≤ j ∧ j ≤ 17)) :
    bbAccum sw n o j = o j := by
  induction n with
  | zero => rfl
  | succ n ih =>
    unfold bbAccum
    rw [bbStep_frame _ _ _ _ h, ih]

theorem addIcpt_frame (sw : List ℚ) (o : ℕ → ℚ) (j : ℕ) (h : ¬ (12 ≤ j ∧ j ≤ 17)) :
    addIcpt sw o j = o j := by
  unfold addIcpt
  rw [updF_ne _ _ _ _ (by omega), updF_ne _ _ _ _ (by omega), updF_ne _ _ _ _ (by omega),
    updF_ne _ _ _ _ (by omega), updF_ne _ _ _ _ (by omega), updF_ne _ _ _ _ (by omega)]

theorem rescueLoop_frame (c : List ℚ) (refl : ℕ → ℤ → ℤ) (col : ℤ) (sf : ℚ) (j0 j1 n j : ℕ)
    (o : ℕ → ℚ) (h0 : ¬ j = j0) (h1 : ¬ j = j1) :
    rescueLoop c refl col sf j0 j1 n o j = o j := by
  induction n with
  | zero => rfl
  | succ n ih =>
    unfold rescueLoop
    rw [updF_ne _ _ _ _ h1, updF_ne _ _ _ _ h0, ih]

theorem rescueBB_frame (c : List ℚ) (refl : ℕ → ℤ → ℤ) (col : ℤ) (sf : ℚ) (j0 j1 n j : ℕ)
    (o : ℕ → ℚ) (h0 : ¬ j = j0) (h1 : ¬ j = j1) :
    rescueBB c refl col sf j0 j1 n o j = o j := by
  unfold rescueBB
  rw [updF_ne _ _ _ _ h1, updF_ne _ _ _ _ h0, rescueLoop_frame c refl col sf j0 j1 n j o h0 h1]

theorem broadband_fst_frame (sw : List ℚ) (refl : ℕ → ℤ → ℤ) (col : ℤ) (sf : ℚ) (n : ℕ)
    (q : ℤ) (o : ℕ → ℚ) (j : ℕ) (h : ¬ (12 ≤ j ∧ j ≤ 17)) :
    (broadband sw refl col sf n q o).1 j = o j := by
  have hacc : addIcpt sw (bbAccum sw n (zeroBB o)) j = o j := by
    rw [addIcpt_frame _ _ _ h, bbAccum_frame _ _ _ _ h, zeroBB_frame _ _ h]
  unfold broadband
  simp only
  split_ifs <;>
    simp only [rescueBB_frame _ _ _ _ 12 13 _ j _ (by omega) (by omega),
      rescueBB_frame _ _ _ _ 14 15 _ j _ (by omega) (by omega),
      rescueBB_frame _ _ _ _ 16 17 _ j _ (by omega) (by omega), hacc]

theorem broadband_snd_cases (sw : List ℚ) (refl : ℕ → ℤ → ℤ) (col : ℤ) (sf : ℚ) (n : ℕ)
    (q q' : ℤ) (o : ℕ → ℚ) :
    ((broadband sw refl col sf n q o).2 = 4 ∧ (broadband sw refl col sf n q' o).2 = 4) ∨
    ((broadband sw refl col sf n q o).2 = q ∧ (broadband sw refl col sf n q' o).2 = q') := by
  unfold broadband
  simp only
  split_ifs <;> simp

theorem broadband_fst_qa (sw : List ℚ) (refl : ℕ → ℤ → ℤ) (col : ℤ) (sf : ℚ) (n : ℕ)
    (q q' : ℤ) (o : ℕ → ℚ) :
    (broadband sw refl col sf n q o).1 = (broadband sw refl col sf n q' o).1 := by
  unfold broadband
  simp only
  split_ifs <;> rfl

theorem broadband_congr (sw : List ℚ) (refl refl' : ℕ → ℤ → ℤ) (col : ℤ) (sf : ℚ) (n : ℕ)
    (q : ℤ) (o o' : ℕ → ℚ) (ho : zeroBB o = zeroBB o') (hr : refl = refl') :
    broadband sw refl col sf n q o = broadband sw refl' col sf n q o' := by
  unfold broadband
  rw [ho, hr]

/-- Applying the classifier to its own output changes nothing. -/
theorem classifyQA_fix (t0 t1 t2 t3 : ℕ) (n : ℕ) (q : ℤ) :
    classifyQA t0 t1 t2 t3 n (classifyQA t0 t1 t2 t3 n q) = classifyQA t0 t1 t2 t3 n q := by
  unfold classifyQA
  split_ifs <;> rfl



/-- The raster value a band writes is a fixed point of the band's own
transformation. -/
theorem bandNewR_idem (sen : Sensor) (cc : ℤ) (ti : ℕ) (r : ℤ) :
    bandNewR sen cc ti (bandNewR sen cc ti r) = bandNewR sen cc ti r := by
  by_cases hF : r = sen.SR_fillValue
  · have h : bandNewR sen cc ti r = r := by
      unfold bandNewR
      simp [hF]
    rw [h, h]
  · by_cases hW : bandW0 sen cc ti = 0
    · have h : bandNewR sen cc ti r = r := by
        unfold bandNewR
        simp [hF, hW]
      rw [h, h]
    · have h : bandNewR sen cc ti r = clampRefl sen.lndSR_ScaFct r := by
        unfold bandNewR
        rw [if_pos ⟨hF, hW⟩]
      rw [h]
      by_cases h5 : clampRefl sen.lndSR_ScaFct r = sen.SR_fillValue
      · unfold bandNewR
        rw [if_neg (by simp [h5])]
      · unfold bandNewR
        rw [if_pos ⟨h5, hW⟩, clampRefl_idem]

theorem bandD5_newR (sen : Sensor) (cc : ℤ) (ti : ℕ) (r : ℤ) :
    bandD5 sen cc ti (bandNewR sen cc ti r) = bandD5 sen cc ti r := by
  unfold bandD5
  rw [bandNewR_idem]

theorem bandD4_newR (sen : Sensor) (cc : ℤ) (ti : ℕ) (r : ℤ) :
    bandD4 sen cc ti (bandNewR sen cc ti r) = bandD4 sen cc ti r := by
  by_cases hW : bandW0 sen cc ti = 0
  · unfold bandD4 bandNewR
    simp [hW]
  · unfold bandD4
    simp [hW]

theorem bandD3_newR (ext : Ext) (sen : Sensor) (cc : ℤ) (ti : ℕ) (r : ℤ)
    (h5 : bandD5 sen cc ti r = 0) :
    bandD3 ext sen cc ti (bandNewR sen cc ti r) = bandD3 ext sen cc ti r := by
  by_cases hF : r = sen.SR_fillValue
  · unfold bandNewR
    simp [hF]
  · by_cases hW : bandW0 sen cc ti = 0
    · unfold bandNewR
      simp [hF, hW]
    · have hnew : bandNewR sen cc ti r = clampRefl sen.lndSR_ScaFct r := by
        unfold bandNewR
        rw [if_pos ⟨hF, hW⟩]
      have hcf : ¬ clampRefl sen.lndSR_ScaFct r = sen.SR_fillValue := by
        intro hc
        unfold bandD5 at h5
        rw [hnew] at h5
        simp [hc] at h5
      rw [hnew]
      unfold bandD3
      rw [if_pos (show ¬ clampRefl sen.lndSR_ScaFct r = sen.SR_fillValue ∧ ¬ bandW0 sen cc ti = 0
            from ⟨hcf, hW⟩),
        if_pos (show ¬ r = sen.SR_fillValue ∧ ¬ bandW0 sen cc ti = 0 from ⟨hF, hW⟩),
        clampRefl_idem]

theorem bandSlotVals_newR (ext : Ext) (sen : Sensor) (cc : ℤ) (ti : ℕ) (r : ℤ) :
    (bandNewR sen cc ti r = sen.SR_fillValue ∧
        bandSlotVals ext sen cc ti (bandNewR sen cc ti r) = none) ∨
    bandSlotVals ext sen cc ti (bandNewR sen cc ti r) = bandSlotVals ext sen cc ti r := by
  by_cases hF : r = sen.SR_fillValue
  · right
    unfold bandNewR
    simp [hF]
  · by_cases hW : bandW0 sen cc ti = 0
    · right
      unfold bandNewR
      simp [hF, hW]
    · have hnew : bandNewR sen cc ti r = clampRefl sen.lndSR_ScaFct r := by
        unfold bandNewR
        rw [if_pos ⟨hF, hW⟩]
      by_cases h5 : clampRefl sen.lndSR_ScaFct r = sen.SR_fillValue
      · left
        rw [hnew, h5]
        refine ⟨rfl, ?_⟩
        unfold bandSlotVals
        rw [if_neg (by simp), if_neg (by simp)]
      · right
        rw [hnew]
        unfold bandSlotVals
        rw [if_pos (show ¬ clampRefl sen.lndSR_ScaFct r = sen.SR_fillValue ∧ ¬ bandW0 sen cc ti = 0
              from ⟨h5, hW⟩),
          if_pos (show ¬ r = sen.SR_fillValue ∧ ¬ bandW0 sen cc ti = 0 from ⟨hF, hW⟩),
          clampRefl_idem]

theorem newR_idem (ext : Ext) (sen : Sensor) (icls : ℤ) (b : ℕ) (r : ℤ) :
    newR ext sen icls b (newR ext sen icls b r) = newR ext sen icls b r :=
  bandNewR_idem sen (bandCC ext sen icls b) (TMBandIndx b) r

theorem d5_newR (ext : Ext) (sen : Sensor) (icls : ℤ) (b : ℕ) (r : ℤ) :
    d5 ext sen icls b (newR ext sen icls b r) = d5 ext sen icls b r :=
  bandD5_newR sen (bandCC ext sen icls b) (TMBandIndx b) r

theorem d4_newR (ext : Ext) (sen : Sensor) (icls : ℤ) (b : ℕ) (r : ℤ) :
    d4 ext sen icls b (newR ext sen icls b r) = d4 ext sen icls b r :=
  bandD4_newR sen (bandCC ext sen icls b) (TMBandIndx b) r

theorem d3_newR (ext : Ext) (sen : Sensor) (icls : ℤ) (b : ℕ) (r : ℤ)
    (h5 : d5 ext sen icls b r = 0) :
    d3 ext sen icls b (newR ext sen icls b r) = d3 ext sen icls b r :=
  bandD3_newR ext sen (bandCC ext sen icls b) (TMBandIndx b) r h5

theorem slotVals_newR (ext : Ext) (sen : Sensor) (icls : ℤ) (b : ℕ) (r : ℤ) :
    (newR ext sen icls b r = sen.SR_fillValue ∧
        slotVals ext sen icls b (newR ext sen icls b r) = none) ∨
    slotVals ext sen icls b (newR ext sen icls b r) = slotVals ext sen icls b r :=
  bandSlotVals_newR ext sen (bandCC ext sen icls b) (TMBandIndx b) r



/-- Payload of a finished or failed band loop. -/
def accOf : Except Acc Acc → Acc
  | .ok a => a
  | .error a => a

theorem select_sw_at_TM (s : ℤ) :
    select_TM_coefficents_sw Instr.TM s = legacy_TM_coefficents_sw := rfl

theorem select_sw_at_ETM (s : ℤ) :
    select_TM_coefficents_sw Instr.ETM s = legacy_TM_coefficents_sw := rfl

theorem select_sw_at_unknown (s : ℤ) :
    select_TM_coefficents_sw Instr.unknown s = legacy_TM_coefficents_sw := rfl

theorem runBands_one (ext : Ext) (sen : Sensor) (col icls : ℤ) (a : Acc) :
    runBands ext sen col icls 1 a = processBand ext sen col icls 0 a := rfl

theorem runBands_two (ext : Ext) (sen : Sensor) (col icls : ℤ) (a : Acc) :
    runBands ext sen col icls 2 a =
      match processBand ext sen col icls 0 a with
      | .error e => .error e
      | .ok a1 => processBand ext sen col icls 1 a1 := rfl

theorem bbAccum_one (sw : List ℚ) (o : ℕ → ℚ) : bbAccum sw 1 o = bbStep sw 0 o := rfl

theorem rescueLoop_one (c : List ℚ) (refl : ℕ → ℤ → ℤ) (col : ℤ) (sf : ℚ) (j0 j1 : ℕ)
    (o : ℕ → ℚ) : rescueLoop c refl col sf j0 j1 1 o =
      (let o1 := updF o j0 (o j0 + c.getD 0 0 * (refl 0 col : ℚ) * sf)
       updF o1 j1 (o1 j1 + c.getD 0 0 * (refl 0 col : ℚ) * sf)) := rfl

/-- Oracle record shared by the concrete runs: purity constants 1, a
closest-class search that always fails, and anisotropy ratios identically 1. -/
def ext1 : Ext :=
  { PUREPIX_thredhold := 1, HIS_BIN := 1,
    getClosestCls := fun _ _ => -1,
    CalculateANratio := fun _ _ _ _ _ _ _ => (1, 1) }

/-- Sensor for the shortwave-rescue run: one active band, legacy instrument,
scale factor 1, fill value -9999, class 0 valid with BRDF kernel weights
(1, 0, 0), purity count 2, and raw reflectance -1 at every cell. -/
def sen1 : Sensor :=
  { instrument := .TM, nbands := 1, SZA := 0, SAA := 0, pix_VZA := 0, pix_VAA := 0,
    lndSR_ScaFct := 1, SR_fillValue := -9999, Clsdata := fun _ => 0, Cls_fillValue := -2,
    actu_ncls := 5, pure_thrsh := fun _ => 2,
    BRDF_paras := fun _ _ j => if j = 0 then 1 else 0,
    OneRowlndSR := fun _ _ => -1 }

/-- Claim C1. The source's broadband rescue (lines 327-345) adds the
Lambertian sum and a second intercept onto the slot's existing contents
instead of recomputing the slot from scratch as its own comment (line 326)
and the spec describe. On the concrete pixel of `sen1` the pre-rescue
shortwave value is the intercept -0.0063 <= 0; the claim says the rescued
slot should equal the recomputation Sum coeff*scale*reflectance + intercept
= -0.0063, but the code leaves -0.0126 in both shortwave slots (quality
code 4 as claimed). -/
theorem C1_rescue_accumulates :
    (CalculateAlbedo ext1 sen1 (fun _ => 0) 0 0 7 0).lndPixAlbedo 12 = -63/5000 ∧
    (CalculateAlbedo ext1 sen1 (fun _ => 0) 0 0 7 0).lndPixAlbedo 13 = -63/5000 ∧
    (CalculateAlbedo ext1 sen1 (fun _ => 0) 0 0 7 0).QA = 4 ∧
    (CalculateAlbedo ext1 sen1 (fun _ => 0) 0 0 7 0).ret = Status.success ∧
    (CalculateAlbedo ext1 sen1 (fun _ => 0) 0 0 7 0).sensor.OneRowlndSR 0 0 = 0 ∧
    legacy_TM_coefficents_sw.getD 0 0 *
        (((CalculateAlbedo ext1 sen1 (fun _ => 0) 0 0 7 0).sensor.OneRowlndSR 0 0 : ℤ) : ℚ) *
        sen1.lndSR_ScaFct + legacy_TM_coefficents_sw.getD 6 0 = -63/10000 ∧
    (-63/5000 : ℚ) ≠ -63/10000 := by
  norm_num [CalculateAlbedo, mkAcc, ext1, sen1, select_sw_at_TM, runBands_one, processBand,
    processBand2, brdfAllZero, TMBandIndx, c_round, trunc0, clampRefl, classifyQA, broadband,
    legacy_TM_coefficents_sw, TM_coefficents_vis, TM_coefficents_nir,
    bbAccum_one, bbStep, zeroBB, addIcpt, rescueBB, rescueLoop_one, updF]

/-- Claim C6. The QA classifier of lines 269-276 assigns the code by first
matching rule over the tallies, and leaves the prior code untouched when no
rule matches. -/
theorem C6_classifier_rules (t0 t1 t2 t3 : ℕ) (nbands : ℕ) (prior : ℤ) :
    (t0 = nbands → classifyQA t0 t1 t2 t3 nbands prior = 0) ∧
    (¬ t0 = nbands → t0 + t1 = nbands → classifyQA t0 t1 t2 t3 nbands prior = 1) ∧
    (¬ t0 = nbands → ¬ t0 + t1 = nbands → t2 + t0 + t1 = nbands →
      classifyQA t0 t1 t2 t3 nbands prior = 2) ∧
    (¬ t0 = nbands → ¬ t0 + t1 = nbands → ¬ t2 + t0 + t1 = nbands → 0 < t3 →
      classifyQA t0 t1 t2 t3 nbands prior = 3) ∧
    (¬ t0 = nbands → ¬ t0 + t1 = nbands → ¬ t2 + t0 + t1 = nbands → ¬ 0 < t3 →
      classifyQA t0 t1 t2 t3 nbands prior = prior) := by
  unfold classifyQA
  refine ⟨?_, ?_, ?_, ?_, ?_⟩ <;> intros <;> simp_all

/-- Witness for C6 at concrete tallies: rule 2 fires for tallies (1,1,0,0)
over 2 bands, and no rule fires for all-zero tallies over 3 bands, leaving
the prior code 9. -/
theorem C6_classifier_rules_witness :
    classifyQA 1 1 0 0 2 9 = 1 ∧ classifyQA 0 0 0 0 3 9 = 9 :=
  ⟨(C6_classifier_rules 1 1 0 0 2 9).2.1 (by decide) (by decide),
   (C6_classifier_rules 0 0 0 0 3 9).2.2.2.2 (by decide) (by decide) (by decide) (by decide)⟩



theorem processBand_avail_eq (ext : Ext) (sen : Sensor) (col icls : ℤ) (iband : ℕ) (a : Acc)
    (hav : ¬ brdfAllZero sen icls (TMBandIndx iband)) :
    processBand ext sen col icls iband a = .ok (processBand2 ext sen col icls iband
      { a with
          t0 := if ext.PUREPIX_thredhold * ext.HIS_BIN < sen.pure_thrsh icls then a.t0 + 1 else a.t0,
          t1 := if sen.pure_thrsh icls = ext.PUREPIX_thredhold * ext.HIS_BIN then a.t1 + 1 else a.t1 }) := by
  unfold processBand
  simp only
  rw [if_neg hav]

/-- Claim C2 (amended). For a band whose own class has a usable BRDF triple
and whose reflectance is not fill: when the first rounded kernel weight is
nonzero the band stores the clamped reflectance back into the raster cell and
both narrow-band values are computed from that clamped value (which, for a
positive scale factor, lies in [0, 1.2/scale)); when the first rounded weight
is zero the isotropic fallback uses the raw reflectance with no clamping at
all. -/
theorem C2_clamp_only_anisotropy (ext : Ext) (sen : Sensor) (col icls : ℤ) (iband : ℕ) (a : Acc)
    (hav : ¬ brdfAllZero sen icls (TMBandIndx iband))
    (hr : ¬ a.OneRowlndSR iband col = sen.SR_fillValue) :
    ∃ a', processBand ext sen col icls iband a = .ok a' ∧
      (¬ bandW0 sen icls (TMBandIndx iband) = 0 →
        a'.OneRowlndSR iband col = clampRefl sen.lndSR_ScaFct (a.OneRowlndSR iband col) ∧
        (0 < sen.lndSR_ScaFct →
          0 ≤ a'.OneRowlndSR iband col ∧
          ((a'.OneRowlndSR iband col : ℤ) : ℚ) < 1.2 / sen.lndSR_ScaFct) ∧
        ((a'.out (iband * 2) = sen.lndSR_ScaFct * ((a'.OneRowlndSR iband col : ℤ) : ℚ) *
            (bandANR ext sen icls (TMBandIndx iband)).2 ∧
          a'.out (iband * 2 + 1) = sen.lndSR_ScaFct * ((a'.OneRowlndSR iband col : ℤ) : ℚ) *
            (bandANR ext sen icls (TMBandIndx iband)).1) ∨
         (a'.out (iband * 2) = sen.lndSR_ScaFct * ((a'.OneRowlndSR iband col : ℤ) : ℚ) ∧
          a'.out (iband * 2 + 1) = sen.lndSR_ScaFct * ((a'.OneRowlndSR iband col : ℤ) : ℚ)))) ∧
      (bandW0 sen icls (TMBandIndx iband) = 0 →
        a'.OneRowlndSR iband col = a.OneRowlndSR iband col ∧
        a'.out (iband * 2) = sen.lndSR_ScaFct * ((a.OneRowlndSR iband col : ℤ) : ℚ) ∧
        a'.out (iband * 2 + 1) = sen.lndSR_ScaFct * ((a.OneRowlndSR iband col : ℤ) : ℚ)) := by
  refine ⟨_, processBand_avail_eq ext sen col icls iband a hav, ?_, ?_⟩
  · intro hw
    have hval : bandNewR sen icls (TMBandIndx iband) (a.OneRowlndSR iband col) =
        clampRefl sen.lndSR_ScaFct (a.OneRowlndSR iband col) := by
      unfold bandNewR
      rw [if_pos ⟨hr, hw⟩]
    have hcell : (processBand2 ext sen col icls iband
        { a with
            t0 := if ext.PUREPIX_thredhold * ext.HIS_BIN < sen.pure_thrsh icls then a.t0 + 1 else a.t0,
            t1 := if sen.pure_thrsh icls = ext.PUREPIX_thredhold * ext.HIS_BIN then a.t1 + 1 else a.t1 }).OneRowlndSR iband col =
        clampRefl sen.lndSR_ScaFct (a.OneRowlndSR iband col) := by
      rw [processBand2_eq]
      simpa using hval
    have houts : ∀ v : ℚ × ℚ,
        bandSlotVals ext sen icls (TMBandIndx iband) (a.OneRowlndSR iband col) = some v →
        (processBand2 ext sen col icls iband
          { a with
              t0 := if ext.PUREPIX_thredhold * ext.HIS_BIN < sen.pure_thrsh icls then a.t0 + 1 else a.t0,
              t1 := if sen.pure_thrsh icls = ext.PUREPIX_thredhold * ext.HIS_BIN then a.t1 + 1 else a.t1 }).out
            (iband * 2) = v.1 ∧
        (processBand2 ext sen col icls iband
          { a with
              t0 := if ext.PUREPIX_thredhold * ext.HIS_BIN < sen.pure_thrsh icls then a.t0 + 1 else a.t0,
              t1 := if sen.pure_thrsh icls = ext.PUREPIX_thredhold * ext.HIS_BIN then a.t1 + 1 else a.t1 }).out
            (iband * 2 + 1) = v.2 := by
      intro v hv
      rw [processBand2_eq]
      simp only [hv, Option.elim]
      exact ⟨upd2_at0 _ _ _ _, upd2_at1 _ _ _ _⟩
    refine ⟨hcell, fun hsf => ?_, ?_⟩
    · rw [hcell]
      exact ⟨clampRefl_nonneg _ hsf _, clampRefl_lt _ hsf _⟩
    · rw [hcell]
      by_cases hneg :
          sen.lndSR_ScaFct * ((clampRefl sen.lndSR_ScaFct (a.OneRowlndSR iband col) : ℤ) : ℚ) *
            (bandANR ext sen icls (TMBandIndx iband)).2 < 0 ∨
          sen.lndSR_ScaFct * ((clampRefl sen.lndSR_ScaFct (a.OneRowlndSR iband col) : ℤ) : ℚ) *
            (bandANR ext sen icls (TMBandIndx iband)).1 < 0
      · right
        have hv : bandSlotVals ext sen icls (TMBandIndx iband) (a.OneRowlndSR iband col) =
            some (sen.lndSR_ScaFct * ((clampRefl sen.lndSR_ScaFct (a.OneRowlndSR iband col) : ℤ) : ℚ),
                  sen.lndSR_ScaFct * ((clampRefl sen.lndSR_ScaFct (a.OneRowlndSR iband col) : ℤ) : ℚ)) := by
          unfold bandSlotVals
          rw [if_pos ⟨hr, hw⟩, if_pos hneg]
        exact houts _ hv
      · left
        have hv : bandSlotVals ext sen icls (TMBandIndx iband) (a.OneRowlndSR iband col) =
            some (sen.lndSR_ScaFct * ((clampRefl sen.lndSR_ScaFct (a.OneRowlndSR iband col) : ℤ) : ℚ) *
                    (bandANR ext sen icls (TMBandIndx iband)).2,
                  sen.lndSR_ScaFct * ((clampRefl sen.lndSR_ScaFct (a.OneRowlndSR iband col) : ℤ) : ℚ) *
                    (bandANR ext sen icls (TMBandIndx iband)).1) := by
          unfold bandSlotVals
          rw [if_pos ⟨hr, hw⟩, if_neg hneg]
        exact houts _ hv
  · intro hw
    have hval : bandNewR sen icls (TMBandIndx iband) (a.OneRowlndSR iband col) =
        a.OneRowlndSR iband col := by
      unfold bandNewR
      rw [if_neg (by simp [hw])]
    have hcell : (processBand2 ext sen col icls iband
        { a with
            t0 := if ext.PUREPIX_thredhold * ext.HIS_BIN < sen.pure_thrsh icls then a.t0 + 1 else a.t0,
            t1 := if sen.pure_thrsh icls = ext.PUREPIX_thredhold * ext.HIS_BIN then a.t1 + 1 else a.t1 }).OneRowlndSR iband col =
        a.OneRowlndSR iband col := by
      rw [processBand2_eq]
      simpa using hval
    have hv : bandSlotVals ext sen icls (TMBandIndx iband) (a.OneRowlndSR iband col) =
        some (sen.lndSR_ScaFct * ((a.OneRowlndSR iband col : ℤ) : ℚ),
              sen.lndSR_ScaFct * ((a.OneRowlndSR iband col : ℤ) : ℚ)) := by
      unfold bandSlotVals
      rw [if_neg (by simp [hw]), if_pos ⟨hw, hr⟩]
    have houts : (processBand2 ext sen col icls iband
          { a with
              t0 := if ext.PUREPIX_thredhold * ext.HIS_BIN < sen.pure_thrsh icls then a.t0 + 1 else a.t0,
              t1 := if sen.pure_thrsh icls = ext.PUREPIX_thredhold * ext.HIS_BIN then a.t1 + 1 else a.t1 }).out
            (iband * 2) = sen.lndSR_ScaFct * ((a.OneRowlndSR iband col : ℤ) : ℚ) ∧
        (processBand2 ext sen col icls iband
          { a with
              t0 := if ext.PUREPIX_thredhold * ext.HIS_BIN < sen.pure_thrsh icls then a.t0 + 1 else a.t0,
              t1 := if sen.pure_thrsh icls = ext.PUREPIX_thredhold * ext.HIS_BIN then a.t1 + 1 else a.t1 }).out
            (iband * 2 + 1) = sen.lndSR_ScaFct * ((a.OneRowlndSR iband col : ℤ) : ℚ) := by
      rw [processBand2_eq]
      simp only [hv, Option.elim]
      exact ⟨upd2_at0 _ _ _ _, upd2_at1 _ _ _ _⟩
    exact ⟨hcell, houts.1, houts.2⟩



/-- Claim C3 (amended). For a band with usable class BRDF and non-fill
reflectance, the isotropic fallback fires exactly when the FIRST rounded
kernel weight is zero — the other two rounded weights play no part in the
branch choice. -/
theorem C3_first_weight_decides (ext : Ext) (sen : Sensor) (col icls : ℤ) (iband : ℕ) (a : Acc)
    (hav : ¬ brdfAllZero sen icls (TMBandIndx iband))
    (hr : ¬ a.OneRowlndSR iband col = sen.SR_fillValue) :
    ∃ a', processBand ext sen col icls iband a = .ok a' ∧
      (a'.t4 = a.t4 + 1 ↔ bandW0 sen icls (TMBandIndx iband) = 0) ∧
      (bandW0 sen icls (TMBandIndx iband) = 0 →
        a'.out (iband * 2) = sen.lndSR_ScaFct * ((a.OneRowlndSR iband col : ℤ) : ℚ) ∧
        a'.out (iband * 2 + 1) = sen.lndSR_ScaFct * ((a.OneRowlndSR iband col : ℤ) : ℚ) ∧
        a'.OneRowlndSR = a.OneRowlndSR) := by
  refine ⟨_, processBand_avail_eq ext sen col icls iband a hav, ?_, ?_⟩
  · have ht4 : (processBand2 ext sen col icls iband
        { a with
            t0 := if ext.PUREPIX_thredhold * ext.HIS_BIN < sen.pure_thrsh icls then a.t0 + 1 else a.t0,
            t1 := if sen.pure_thrsh icls = ext.PUREPIX_thredhold * ext.HIS_BIN then a.t1 + 1 else a.t1 }).t4 =
        a.t4 + bandD4 sen icls (TMBandIndx iband) (a.OneRowlndSR iband col) := by
      rw [processBand2_eq]
    rw [ht4]
    unfold bandD4
    by_cases hw : bandW0 sen icls (TMBandIndx iband) = 0
    · rw [if_pos ⟨hw, hr⟩]
      simp [hw]
    · rw [if_neg (by simp [hw])]
      constructor
      · intro hc
        omega
      · intro hc
        exact absurd hc hw
  · intro hw
    have hval : bandNewR sen icls (TMBandIndx iband) (a.OneRowlndSR iband col) =
        a.OneRowlndSR iband col := by
      unfold bandNewR
      rw [if_neg (by simp [hw])]
    have hv : bandSlotVals ext sen icls (TMBandIndx iband) (a.OneRowlndSR iband col) =
        some (sen.lndSR_ScaFct * ((a.OneRowlndSR iband col : ℤ) : ℚ),
              sen.lndSR_ScaFct * ((a.OneRowlndSR iband col : ℤ) : ℚ)) := by
      unfold bandSlotVals
      rw [if_neg (by simp [hw]), if_pos ⟨hw, hr⟩]
    have houts : (processBand2 ext sen col icls iband
          { a with
              t0 := if ext.PUREPIX_thredhold * ext.HIS_BIN < sen.pure_thrsh icls then a.t0 + 1 else a.t0,
              t1 := if sen.pure_thrsh icls = ext.PUREPIX_thredhold * ext.HIS_BIN then a.t1 + 1 else a.t1 }).out
            (iband * 2) = sen.lndSR_ScaFct * ((a.OneRowlndSR iband col : ℤ) : ℚ) ∧
        (processBand2 ext sen col icls iband
          { a with
              t0 := if ext.PUREPIX_thredhold * ext.HIS_BIN < sen.pure_thrsh icls then a.t0 + 1 else a.t0,
              t1 := if sen.pure_thrsh icls = ext.PUREPIX_thredhold * ext.HIS_BIN then a.t1 + 1 else a.t1 }).out
            (iband * 2 + 1) = sen.lndSR_ScaFct * ((a.OneRowlndSR iband col : ℤ) : ℚ) := by
      rw [processBand2_eq]
      simp only [hv, Option.elim]
      exact ⟨upd2_at0 _ _ _ _, upd2_at1 _ _ _ _⟩
    refine ⟨houts.1, houts.2, ?_⟩
    rw [processBand2_eq]
    exact refl_upd_self a.OneRowlndSR iband col _ hval



/-- Sensor whose single band has kernel weights (0.4, 0, 0) — usable before
rounding, all zero after rounding — and raw reflectance -5. -/
def senC2a : Sensor :=
  { instrument := .TM, nbands := 1, SZA := 0, SAA := 0, pix_VZA := 0, pix_VAA := 0,
    lndSR_ScaFct := 1, SR_fillValue := -9999, Clsdata := fun _ => 0, Cls_fillValue := -2,
    actu_ncls := 5, pure_thrsh := fun _ => 2,
    BRDF_paras := fun _ _ j => if j = 0 then 0.4 else 0,
    OneRowlndSR := fun _ _ => -5 }

/-- Sensor whose single band has kernel weights (1, 0, 0) and raw reflectance
1, which with scale factor 1 lies in the unclamped gap (0.99, 1.2). -/
def senC2b : Sensor :=
  { instrument := .TM, nbands := 1, SZA := 0, SAA := 0, pix_VZA := 0, pix_VAA := 0,
    lndSR_ScaFct := 1, SR_fillValue := -9999, Clsdata := fun _ => 0, Cls_fillValue := -2,
    actu_ncls := 5, pure_thrsh := fun _ => 2,
    BRDF_paras := fun _ _ j => if j = 0 then 1 else 0,
    OneRowlndSR := fun _ _ => 1 }

/-- Counterexample to claim C2 as stated. Run A (`senC2a`): the isotropic
fallback writes the raw reflectance -5 into narrow-band slot 0 with no
clamping, so a value outside [0, 0.99/scale] was used. Run B (`senC2b`): the
anisotropy branch uses reflectance 1 > 0.99/scale unclamped, because the code
only clamps values at or above 1.2/scale. -/
theorem C2_counterexample :
    (CalculateAlbedo ext1 senC2a (fun _ => 0) 0 0 7 0).lndPixAlbedo 0 = -5 ∧
    (CalculateAlbedo ext1 senC2b (fun _ => 0) 0 0 7 0).lndPixAlbedo 0 = 1 ∧
    (0.99 : ℚ) / senC2b.lndSR_ScaFct < 1 := by
  refine ⟨?_, ?_, ?_⟩
  · norm_num [CalculateAlbedo, mkAcc, ext1, senC2a, select_sw_at_TM, runBands_one, processBand,
      processBand2, brdfAllZero, TMBandIndx, c_round, trunc0, clampRefl, classifyQA, broadband,
      legacy_TM_coefficents_sw, TM_coefficents_vis, TM_coefficents_nir,
      bbAccum_one, bbStep, zeroBB, addIcpt, rescueBB, rescueLoop_one, updF]
  · norm_num [CalculateAlbedo, mkAcc, ext1, senC2b, select_sw_at_TM, runBands_one, processBand,
      processBand2, brdfAllZero, TMBandIndx, c_round, trunc0, clampRefl, classifyQA, broadband,
      legacy_TM_coefficents_sw, TM_coefficents_vis, TM_coefficents_nir,
      bbAccum_one, bbStep, zeroBB, addIcpt, rescueBB, rescueLoop_one, updF]
  · norm_num [senC2b]

/-- Starting loop state over `sen1` with a zero output buffer. -/
def acc1 : Acc :=
  { OneRowlndSR := sen1.OneRowlndSR, out := fun _ => 0,
    t0 := 0, t1 := 0, t2 := 0, t3 := 0, t4 := 0, t5 := 0, srFlag := 0 }

/-- Witness for C2 at the concrete band of `sen1`. -/
theorem C2_clamp_only_anisotropy_witness :
    ∃ a', processBand ext1 sen1 0 0 0 acc1 = .ok a' ∧
      (¬ bandW0 sen1 0 (TMBandIndx 0) = 0 →
        a'.OneRowlndSR 0 0 = clampRefl sen1.lndSR_ScaFct (acc1.OneRowlndSR 0 0) ∧
        (0 < sen1.lndSR_ScaFct →
          0 ≤ a'.OneRowlndSR 0 0 ∧
          ((a'.OneRowlndSR 0 0 : ℤ) : ℚ) < 1.2 / sen1.lndSR_ScaFct) ∧
        ((a'.out (0 * 2) = sen1.lndSR_ScaFct * ((a'.OneRowlndSR 0 0 : ℤ) : ℚ) *
            (bandANR ext1 sen1 0 (TMBandIndx 0)).2 ∧
          a'.out (0 * 2 + 1) = sen1.lndSR_ScaFct * ((a'.OneRowlndSR 0 0 : ℤ) : ℚ) *
            (bandANR ext1 sen1 0 (TMBandIndx 0)).1) ∨
         (a'.out (0 * 2) = sen1.lndSR_ScaFct * ((a'.OneRowlndSR 0 0 : ℤ) : ℚ) ∧
          a'.out (0 * 2 + 1) = sen1.lndSR_ScaFct * ((a'.OneRowlndSR 0 0 : ℤ) : ℚ)))) ∧
      (bandW0 sen1 0 (TMBandIndx 0) = 0 →
        a'.OneRowlndSR 0 0 = acc1.OneRowlndSR 0 0 ∧
        a'.out (0 * 2) = sen1.lndSR_ScaFct * ((acc1.OneRowlndSR 0 0 : ℤ) : ℚ) ∧
        a'.out (0 * 2 + 1) = sen1.lndSR_ScaFct * ((acc1.OneRowlndSR 0 0 : ℤ) : ℚ)) :=
  C2_clamp_only_anisotropy ext1 sen1 0 0 0 acc1
    (by simp [sen1, TMBandIndx]) (by simp [acc1, sen1])

/-- Sensor whose single band has kernel weights (0, 3, 0): not all zero, yet
the first weight rounds to zero. -/
def senC3w : Sensor :=
  { instrument := .TM, nbands := 1, SZA := 0, SAA := 0, pix_VZA := 0, pix_VAA := 0,
    lndSR_ScaFct := 1, SR_fillValue := -9999, Clsdata := fun _ => 0, Cls_fillValue := -2,
    actu_ncls := 5, pure_thrsh := fun _ => 2,
    BRDF_paras := fun _ _ j => if j = 1 then 3 else 0,
    OneRowlndSR := fun _ _ => 7 }

/-- Starting loop state over `senC3w` with a zero output buffer. -/
def accC3w : Acc :=
  { OneRowlndSR := senC3w.OneRowlndSR, out := fun _ => 0,
    t0 := 0, t1 := 0, t2 := 0, t3 := 0, t4 := 0, t5 := 0, srFlag := 0 }

/-- Witness for C3 at the concrete band of `senC3w`. -/
theorem C3_first_weight_decides_witness :
    ∃ a', processBand ext1 senC3w 0 0 0 accC3w = .ok a' ∧
      (a'.t4 = accC3w.t4 + 1 ↔ bandW0 senC3w 0 (TMBandIndx 0) = 0) ∧
      (bandW0 senC3w 0 (TMBandIndx 0) = 0 →
        a'.out (0 * 2) = senC3w.lndSR_ScaFct * ((accC3w.OneRowlndSR 0 0 : ℤ) : ℚ) ∧
        a'.out (0 * 2 + 1) = senC3w.lndSR_ScaFct * ((accC3w.OneRowlndSR 0 0 : ℤ) : ℚ) ∧
        a'.OneRowlndSR = accC3w.OneRowlndSR) :=
  C3_first_weight_decides ext1 senC3w 0 0 0 accC3w
    (by simp [senC3w, TMBandIndx]) (by simp [accC3w, senC3w])

/-- Oracle whose anisotropy ratios are identically 5. -/
def extC3 : Ext :=
  { PUREPIX_thredhold := 1, HIS_BIN := 1,
    getClosestCls := fun _ _ => -1,
    CalculateANratio := fun _ _ _ _ _ _ _ => (5, 5) }

/-- Sensor whose single band has kernel weights (0.4, 2.3, 2.6), which round
to (0, 2, 3) — not all zero — and reflectance 1. -/
def senC3 : Sensor :=
  { instrument := .TM, nbands := 1, SZA := 0, SAA := 0, pix_VZA := 0, pix_VAA := 0,
    lndSR_ScaFct := 1, SR_fillValue := -9999, Clsdata := fun _ => 0, Cls_fillValue := -2,
    actu_ncls := 5, pure_thrsh := fun _ => 2,
    BRDF_paras := fun _ _ j => if j = 0 then 0.4 else if j = 1 then 2.3 else 2.6,
    OneRowlndSR := fun _ _ => 1 }

/-- Starting loop state over `senC3` with a zero output buffer. -/
def accC3 : Acc :=
  { OneRowlndSR := senC3.OneRowlndSR, out := fun _ => 0,
    t0 := 0, t1 := 0, t2 := 0, t3 := 0, t4 := 0, t5 := 0, srFlag := 0 }

/-- Counterexample to claim C3 as stated. The rounded kernel-weight triple of
the band is (0, 2, 3), which is not all zero, so the claim requires the
anisotropy-corrected branch (which with ratio 5 would store 5); but the code
tests only the first rounded weight, takes the isotropic fallback (tally
`tmpQA[4]` becomes 1) and stores the raw value 1. -/
theorem C3_counterexample :
    c_round (senC3.BRDF_paras 0 (TMBandIndx 0) 0) = 0 ∧
    c_round (senC3.BRDF_paras 0 (TMBandIndx 0) 1) = 2 ∧
    c_round (senC3.BRDF_paras 0 (TMBandIndx 0) 2) = 3 ∧
    (accOf (runBands extC3 senC3 0 0 1 accC3)).t4 = 1 ∧
    (accOf (runBands extC3 senC3 0 0 1 accC3)).t3 = 0 ∧
    (accOf (runBands extC3 senC3 0 0 1 accC3)).out 0 = 1 ∧
    senC3.lndSR_ScaFct * ((senC3.OneRowlndSR 0 0 : ℤ) : ℚ) *
      (extC3.CalculateANratio 0 2 3 senC3.SZA senC3.SAA senC3.pix_VZA senC3.pix_VAA).2 = 5 := by
  refine ⟨?_, ?_, ?_, ?_, ?_, ?_, ?_⟩ <;>
    norm_num [accOf, runBands_one, processBand, processBand2, extC3, senC3, accC3,
      brdfAllZero, TMBandIndx, c_round, trunc0, clampRefl, updF]


theorem CalculateAlbedo_invalid_eq (ext : Ext) (sen : Sensor) (out : ℕ → ℚ) (row col qa snow : ℤ)
    (h : sen.Clsdata col = sen.Cls_fillValue ∨ sen.actu_ncls < sen.Clsdata col ∨
      sen.Clsdata col < 0) :
    CalculateAlbedo ext sen out row col qa snow =
      { sensor := sen, lndPixAlbedo := out, QA := qa, ret := .failure } := by
  unfold CalculateAlbedo
  rw [if_pos h]

theorem CalculateAlbedo_err_eq (ext : Ext) (sen : Sensor) (out : ℕ → ℚ) (row col qa snow : ℤ)
    (hval : ¬ (sen.Clsdata col = sen.Cls_fillValue ∨ sen.actu_ncls < sen.Clsdata col ∨
      sen.Clsdata col < 0))
    (e : Acc)
    (her : runBands ext sen col (sen.Clsdata col) sen.nbands (mkAcc sen out) = .error e) :
    CalculateAlbedo ext sen out row col qa snow =
      { sensor := { sen with OneRowlndSR := e.OneRowlndSR },
        lndPixAlbedo := e.out, QA := qa, ret := .failure } := by
  unfold CalculateAlbedo
  rw [if_neg hval, her]

theorem CalculateAlbedo_ok_eq (ext : Ext) (sen : Sensor) (out : ℕ → ℚ) (row col qa snow : ℤ)
    (hval : ¬ (sen.Clsdata col = sen.Cls_fillValue ∨ sen.actu_ncls < sen.Clsdata col ∨
      sen.Clsdata col < 0))
    (a : Acc)
    (hok : runBands ext sen col (sen.Clsdata col) sen.nbands (mkAcc sen out) = .ok a) :
    CalculateAlbedo ext sen out row col qa snow =
      (if a.srFlag ≠ 0 then
        { sensor := { sen with OneRowlndSR := a.OneRowlndSR },
          lndPixAlbedo := a.out, QA := -1, ret := .failure }
      else
        { sensor := { sen with OneRowlndSR := a.OneRowlndSR },
          lndPixAlbedo := (broadband (select_TM_coefficents_sw sen.instrument snow)
            a.OneRowlndSR col sen.lndSR_ScaFct sen.nbands
            (classifyQA a.t0 a.t1 a.t2 a.t3 sen.nbands qa) a.out).1,
          QA := (broadband (select_TM_coefficents_sw sen.instrument snow)
            a.OneRowlndSR col sen.lndSR_ScaFct sen.nbands
            (classifyQA a.t0 a.t1 a.t2 a.t3 sen.nbands qa) a.out).2,
          ret := .success }) := by
  unfold CalculateAlbedo
  rw [if_neg hval, hok]

theorem newR_cases (ext : Ext) (sen : Sensor) (icls : ℤ) (b : ℕ) (r : ℤ) :
    newR ext sen icls b r = r ∨
    newR ext sen icls b r = clampRefl sen.lndSR_ScaFct r := by
  unfold newR bandNewR
  split_ifs
  · right
    rfl
  · left
    rfl

/-- Every raster cell after a call is either the original value or its
in-place clamp; cells off the processed column and beyond the band count are
untouched. -/
theorem raster_cases (ext : Ext) (sen : Sensor) (out : ℕ → ℚ) (row col qa snow : ℤ) :
    (∀ b c, ¬ (b < sen.nbands ∧ c = col) →
      (CalculateAlbedo ext sen out row col qa snow).sensor.OneRowlndSR b c =
        sen.OneRowlndSR b c) ∧
    (∀ b, (CalculateAlbedo ext sen out row col qa snow).sensor.OneRowlndSR b col =
        sen.OneRowlndSR b col ∨
      (CalculateAlbedo ext sen out row col qa snow).sensor.OneRowlndSR b col =
        clampRefl sen.lndSR_ScaFct (sen.OneRowlndSR b col)) := by
  by_cases hval : sen.Clsdata col = sen.Cls_fillValue ∨ sen.actu_ncls < sen.Clsdata col ∨
      sen.Clsdata col < 0
  · rw [CalculateAlbedo_invalid_eq ext sen out row col qa snow hval]
    exact ⟨fun b c _ => rfl, fun b => Or.inl rfl⟩
  · cases hr : runBands ext sen col (sen.Clsdata col) sen.nbands (mkAcc sen out) with
    | error e =>
      obtain ⟨b, hb, hpre, hf, hrb⟩ :=
        runBands_error_inv ext sen col (sen.Clsdata col) sen.nbands (mkAcc sen out) e hr
      obtain ⟨a', hok, hfr, hrv, -⟩ :=
        runBands_char ext sen col (sen.Clsdata col) b (mkAcc sen out) hpre
      rw [hok] at hrb
      injection hrb with he
      subst he
      have key : (∀ k c, ¬ (k < sen.nbands ∧ c = col) →
          a'.OneRowlndSR k c = sen.OneRowlndSR k c) ∧
          (∀ k, a'.OneRowlndSR k col = sen.OneRowlndSR k col ∨
            a'.OneRowlndSR k col = clampRefl sen.lndSR_ScaFct (sen.OneRowlndSR k col)) := by
        constructor
        · intro k c hkc
          exact hfr k c (fun hx => hkc ⟨by omega, hx.2⟩)
        · intro k
          by_cases hk : k < b
          · rw [hrv k hk]
            exact newR_cases ext sen (sen.Clsdata col) k (sen.OneRowlndSR k col)
          · exact Or.inl (hfr k col (fun hx => hk hx.1))
      rw [CalculateAlbedo_err_eq ext sen out row col qa snow hval a' hr]
      exact key
    | ok a =>
      have hnf := runBands_ok_no_fail ext sen col (sen.Clsdata col) sen.nbands (mkAcc sen out) a hr
      obtain ⟨a', hok, hfr, hrv, -⟩ :=
        runBands_char ext sen col (sen.Clsdata col) sen.nbands (mkAcc sen out) hnf
      rw [hr] at hok
      injection hok with he
      subst he
      have key : (∀ k c, ¬ (k < sen.nbands ∧ c = col) →
          a.OneRowlndSR k c = sen.OneRowlndSR k c) ∧
          (∀ k, a.OneRowlndSR k col = sen.OneRowlndSR k col ∨
            a.OneRowlndSR k col = clampRefl sen.lndSR_ScaFct (sen.OneRowlndSR k col)) := by
        constructor
        · intro k c hkc
          exact hfr k c hkc
        · intro k
          by_cases hk : k < sen.nbands
          · rw [hrv k hk]
            exact newR_cases ext sen (sen.Clsdata col) k (sen.OneRowlndSR k col)
          · exact Or.inl (hfr k col (fun hx => hk hx.1))
      rw [CalculateAlbedo_ok_eq ext sen out row col qa snow hval a hr]
      by_cases hsr : a.srFlag ≠ 0
      · rw [if_pos hsr]
        exact key
      · rw [if_neg hsr]
        exact key

/-- Claim C7 (amended). A call to `CalculateAlbedo` leaves the class raster,
purity counts, BRDF parameter tensor, geometry, scale factor, fill values and
band count of the sensor context untouched; but contrary to the claim the
per-row reflectance raster is NOT read-only: cells of active bands at the
processed column may be overwritten in place by their clamped value
(lines 204-208), and every other raster cell is unchanged. -/
theorem C7_sensor_frame (ext : Ext) (sen : Sensor) (out : ℕ → ℚ) (row col qa snow : ℤ) :
    (CalculateAlbedo ext sen out row col qa snow).sensor.instrument = sen.instrument ∧
    (CalculateAlbedo ext sen out row col qa snow).sensor.nbands = sen.nbands ∧
    (CalculateAlbedo ext sen out row col qa snow).sensor.SZA = sen.SZA ∧
    (CalculateAlbedo ext sen out row col qa snow).sensor.SAA = sen.SAA ∧
    (CalculateAlbedo ext sen out row col qa snow).sensor.pix_VZA = sen.pix_VZA ∧
    (CalculateAlbedo ext sen out row col qa snow).sensor.pix_VAA = sen.pix_VAA ∧
    (CalculateAlbedo ext sen out row col qa snow).sensor.lndSR_ScaFct = sen.lndSR_ScaFct ∧
    (CalculateAlbedo ext sen out row col qa snow).sensor.SR_fillValue = sen.SR_fillValue ∧
    (CalculateAlbedo ext sen out row col qa snow).sensor.Clsdata = sen.Clsdata ∧
    (CalculateAlbedo ext sen out row col qa snow).sensor.Cls_fillValue = sen.Cls_fillValue ∧
    (CalculateAlbedo ext sen out row col qa snow).sensor.actu_ncls = sen.actu_ncls ∧
    (CalculateAlbedo ext sen out row col qa snow).sensor.pure_thrsh = sen.pure_thrsh ∧
    (CalculateAlbedo ext sen out row col qa snow).sensor.BRDF_paras = sen.BRDF_paras ∧
    (∀ b c, ¬ (b < sen.nbands ∧ c = col) →
      (CalculateAlbedo ext sen out row col qa snow).sensor.OneRowlndSR b c =
        sen.OneRowlndSR b c) ∧
    (∀ b, (CalculateAlbedo ext sen out row col qa snow).sensor.OneRowlndSR b col =
        sen.OneRowlndSR b col ∨
      (CalculateAlbedo ext sen out row col qa snow).sensor.OneRowlndSR b col =
        clampRefl sen.lndSR_ScaFct (sen.OneRowlndSR b col)) := by
  obtain ⟨hfr, hcell⟩ := raster_cases ext sen out row col qa snow
  have hstatic : ∀ r : PixResult, (r = ({ sensor := sen, lndPixAlbedo := out, QA := qa, ret := .failure } : PixResult) ∨
      ∃ f, r.sensor = { sen with OneRowlndSR := f }) →
      r.sensor.instrument = sen.instrument ∧ r.sensor.nbands = sen.nbands ∧
      r.sensor.SZA = sen.SZA ∧ r.sensor.SAA = sen.SAA ∧
      r.sensor.pix_VZA = sen.pix_VZA ∧ r.sensor.pix_VAA = sen.pix_VAA ∧
      r.sensor.lndSR_ScaFct = sen.lndSR_ScaFct ∧
      r.sensor.SR_fillValue = sen.SR_fillValue ∧ r.sensor.Clsdata = sen.Clsdata ∧
      r.sensor.Cls_fillValue = sen.Cls_fillValue ∧ r.sensor.actu_ncls = sen.actu_ncls ∧
      r.sensor.pure_thrsh = sen.pure_thrsh ∧ r.sensor.BRDF_paras = sen.BRDF_paras := by
    rintro r (h | ⟨f, h⟩) <;> rw [h] <;> exact ⟨rfl, rfl, rfl, rfl, rfl, rfl, rfl, rfl,
      rfl, rfl, rfl, rfl, rfl⟩
  have hshape : CalculateAlbedo ext sen out row col qa snow =
      ({ sensor := sen, lndPixAlbedo := out, QA := qa, ret := .failure } : PixResult) ∨
      ∃ f, (CalculateAlbedo ext sen out row col qa snow).sensor = { sen with OneRowlndSR := f } := by
    by_cases hval : sen.Clsdata col = sen.Cls_fillValue ∨ sen.actu_ncls < sen.Clsdata col ∨
        sen.Clsdata col < 0
    · exact Or.inl (CalculateAlbedo_invalid_eq ext sen out row col qa snow hval)
    · right
      cases hr : runBands ext sen col (sen.Clsdata col) sen.nbands (mkAcc sen out) with
      | error e =>
        rw [CalculateAlbedo_err_eq ext sen out row col qa snow hval e hr]
        exact ⟨e.OneRowlndSR, rfl⟩
      | ok a =>
        rw [CalculateAlbedo_ok_eq ext sen out row col qa snow hval a hr]
        refine ⟨a.OneRowlndSR, ?_⟩
        by_cases hsr : a.srFlag ≠ 0
        · rw [if_pos hsr]
        · rw [if_neg hsr]
  obtain ⟨h1, h2, h3, h4, h5, h6, h7, h8, h9, h10, h11, h12, h13⟩ :=
    hstatic (CalculateAlbedo ext sen out row col qa snow) hshape
  exact ⟨h1, h2, h3, h4, h5, h6, h7, h8, h9, h10, h11, h12, h13, hfr, hcell⟩

/-- Counterexample to claim C7 as stated: on the pixel of `sen1` the raw
reflectance -1 at band 0 is not the fill value and the first rounded kernel
weight is 1, so the in-place clamp of lines 204-208 overwrites the raster
cell with 0: the reflectance raster reachable from the sensor context is
mutated by the call. -/
theorem C7_counterexample :
    sen1.OneRowlndSR 0 0 = -1 ∧
    (CalculateAlbedo ext1 sen1 (fun _ => 0) 0 0 7 0).sensor.OneRowlndSR 0 0 = 0 := by
  constructor
  · norm_num [sen1]
  · norm_num [CalculateAlbedo, mkAcc, ext1, sen1, select_sw_at_TM, runBands_one, processBand,
      processBand2, brdfAllZero, TMBandIndx, c_round, trunc0, clampRefl, classifyQA, broadband,
      legacy_TM_coefficents_sw, TM_coefficents_vis, TM_coefficents_nir,
      bbAccum_one, bbStep, zeroBB, addIcpt, rescueBB, rescueLoop_one, updF]


/-- Claim C4 (amended). The fill-band sentinel of lines 245-249 and 263-267
fires only when the band loop completes: for a pixel whose class is valid,
whose every band resolves a usable BRDF class, and (with at most six bands)
at least one band's reflectance at the pixel equals the sensor's fill value,
the call sets the quality code to -1, returns failure, and leaves the six
broadband output slots 12-17 untouched. (The unamended claim is false: on the
early-failure paths — invalid class, or a band whose closest-class search
fails — a fill band leaves the quality code unwritten.) -/
theorem C4_fill_sets_sentinel (ext : Ext) (sen : Sensor) (out : ℕ → ℚ) (row col qa snow : ℤ)
    (hval : ¬ (sen.Clsdata col = sen.Cls_fillValue ∨ sen.actu_ncls < sen.Clsdata col ∨
      sen.Clsdata col < 0))
    (hres : ∀ b, b < sen.nbands → ¬ bandFails ext sen (sen.Clsdata col) b)
    (hn : sen.nbands ≤ 6)
    (hfill : ∃ b, b < sen.nbands ∧ sen.OneRowlndSR b col = sen.SR_fillValue) :
    (CalculateAlbedo ext sen out row col qa snow).QA = -1 ∧
    (CalculateAlbedo ext sen out row col qa snow).ret = .failure ∧
    ∀ j, 12 ≤ j → (CalculateAlbedo ext sen out row col qa snow).lndPixAlbedo j = out j := by
  obtain ⟨a', hok, hfr, hrv, hof, hsv, h0, h1, h2, h3, h4, h5⟩ :=
    runBands_char ext sen col (sen.Clsdata col) sen.nbands (mkAcc sen out) hres
  obtain ⟨b, hb, hbf⟩ := hfill
  have hd5 : d5 ext sen (sen.Clsdata col) b ((mkAcc sen out).OneRowlndSR b col) = 1 := by
    show d5 ext sen (sen.Clsdata col) b (sen.OneRowlndSR b col) = 1
    unfold d5 bandD5 bandNewR
    rw [hbf]
    simp
  have hsum : 1 ≤ Finset.sum (Finset.range sen.nbands)
      (fun b => d5 ext sen (sen.Clsdata col) b ((mkAcc sen out).OneRowlndSR b col)) := by
    calc 1 = d5 ext sen (sen.Clsdata col) b ((mkAcc sen out).OneRowlndSR b col) := hd5.symm
    _ ≤ _ := Finset.single_le_sum (f := fun b =>
        d5 ext sen (sen.Clsdata col) b ((mkAcc sen out).OneRowlndSR b col))
        (fun i _ => Nat.zero_le _) (Finset.mem_range.mpr hb)
  have hsr : a'.srFlag ≠ 0 := by
    have : (mkAcc sen out).srFlag = 0 := rfl
    omega
  rw [CalculateAlbedo_ok_eq ext sen out row col qa snow hval a' hok, if_pos hsr]
  refine ⟨rfl, rfl, ?_⟩
  intro j hj
  show a'.out j = out j
  have := hof j (fun b hbn => ⟨by omega, by omega⟩)
  exact this

/-- Left-fill sensor: like `sen1` but every raster cell holds the fill value
-9999 itself, so the single band is a fill band. -/
def sen4 : Sensor :=
  { instrument := .TM, nbands := 1, SZA := 0, SAA := 0, pix_VZA := 0, pix_VAA := 0,
    lndSR_ScaFct := 1, SR_fillValue := -9999, Clsdata := fun _ => 0, Cls_fillValue := -2,
    actu_ncls := 5, pure_thrsh := fun _ => 2,
    BRDF_paras := fun _ _ j => if j = 0 then 1 else 0,
    OneRowlndSR := fun _ _ => -9999 }

/-- Witness for C4 at the concrete pixel of `sen4`: the single band is fill,
the loop completes, and the call yields quality code -1, failure, and
untouched broadband slots. -/
theorem C4_fill_sets_sentinel_witness :
    (CalculateAlbedo ext1 sen4 (fun _ => 0) 0 0 7 0).QA = -1 ∧
    (CalculateAlbedo ext1 sen4 (fun _ => 0) 0 0 7 0).ret = .failure ∧
    ∀ j, 12 ≤ j → (CalculateAlbedo ext1 sen4 (fun _ => 0) 0 0 7 0).lndPixAlbedo j =
      (fun _ => (0 : ℚ)) j :=
  C4_fill_sets_sentinel ext1 sen4 (fun _ => 0) 0 0 7 0
    (by simp [sen4])
    (by
      intro b hb
      simp only [sen4] at hb
      simp [bandFails, brdfAllZero, sen4, TMBandIndx])
    (by simp [sen4])
    ⟨0, by simp [sen4], by simp [sen4]⟩

/-- Resolution-failure sensor: like `sen4` (all raster cells fill) but with an
all-zero BRDF triple, so the single band triggers the closest-class search,
which `ext1` always fails. -/
def sen4b : Sensor :=
  { instrument := .TM, nbands := 1, SZA := 0, SAA := 0, pix_VZA := 0, pix_VAA := 0,
    lndSR_ScaFct := 1, SR_fillValue := -9999, Clsdata := fun _ => 0, Cls_fillValue := -2,
    actu_ncls := 5, pure_thrsh := fun _ => 2,
    BRDF_paras := fun _ _ _ => 0,
    OneRowlndSR := fun _ _ => -9999 }

/-- Counterexample to claim C4 as stated: at the pixel of `sen4b` the single
active band's reflectance equals the fill value -9999, yet the call returns
failure through the closest-class search of lines 158-167 with the quality
code left at its prior value 7, not set to the sentinel -1. -/
theorem C4_counterexample :
    sen4b.OneRowlndSR 0 0 = sen4b.SR_fillValue ∧
    (CalculateAlbedo ext1 sen4b (fun _ => 0) 0 0 7 0).ret = .failure ∧
    (CalculateAlbedo ext1 sen4b (fun _ => 0) 0 0 7 0).QA = 7 := by
  refine ⟨by norm_num [sen4b], ?_, ?_⟩ <;>
    norm_num [CalculateAlbedo, mkAcc, ext1, sen4b, runBands_one, processBand,
      brdfAllZero, TMBandIndx]


/-- Claim C5 (amended). For a pixel with a valid class, all six bands active,
a positive scale factor, a negative fill value, and — at every band — a
usable own-class BRDF triple whose rounded first kernel weight is nonzero and
a non-fill reflectance, with the pixel purity strictly above the purity
threshold: the call succeeds, the quality code is 0 unless a broadband rescue
overwrote it with 4, and every narrow-band output slot 0-11 is nonnegative.
(The unamended claim is false: without the purity condition the classifier
does not assign 0, without the rounded-weight condition the isotropic
fallback stores the raw — possibly negative — reflectance, and a rescue can
replace the 0 with 4.) -/
theorem C5_clean_pixel_quality (ext : Ext) (sen : Sensor) (out : ℕ → ℚ) (row col qa snow : ℤ)
    (hval : ¬ (sen.Clsdata col = sen.Cls_fillValue ∨ sen.actu_ncls < sen.Clsdata col ∨
      sen.Clsdata col < 0))
    (hn : sen.nbands = 6)
    (hsf : 0 < sen.lndSR_ScaFct)
    (hfv : sen.SR_fillValue < 0)
    (hbands : ∀ b, b < sen.nbands → ¬ brdfAllZero sen (sen.Clsdata col) (TMBandIndx b))
    (hpure : ext.PUREPIX_thredhold * ext.HIS_BIN < sen.pure_thrsh (sen.Clsdata col))
    (hw : ∀ b, b < sen.nbands → ¬ bandW0 sen (sen.Clsdata col) (TMBandIndx b) = 0)
    (hnf : ∀ b, b < sen.nbands → ¬ sen.OneRowlndSR b col = sen.SR_fillValue) :
    (CalculateAlbedo ext sen out row col qa snow).ret = .success ∧
    ((CalculateAlbedo ext sen out row col qa snow).QA = 0 ∨
     (CalculateAlbedo ext sen out row col qa snow).QA = 4) ∧
    ∀ j, j ≤ 11 → 0 ≤ (CalculateAlbedo ext sen out row col qa snow).lndPixAlbedo j := by
  have hres : ∀ b, b < sen.nbands → ¬ bandFails ext sen (sen.Clsdata col) b := by
    intro b hb hf
    exact hbands b hb hf.1
  obtain ⟨a', hok, hfr, hrv, hof, hsv, h0, h1, h2, h3, h4, h5⟩ :=
    runBands_char ext sen col (sen.Clsdata col) sen.nbands (mkAcc sen out) hres
  have hmk : (mkAcc sen out).OneRowlndSR = sen.OneRowlndSR := rfl
  rw [hmk] at hsv h5
  have hcc : ∀ b, b < sen.nbands → bandCC ext sen (sen.Clsdata col) b = sen.Clsdata col := by
    intro b hb
    unfold bandCC resolvedCls
    rw [if_neg (hbands b hb)]
  have ht0 : a'.t0 = sen.nbands := by
    rw [h0]
    have hone : ∀ b ∈ Finset.range sen.nbands, d0 ext sen (sen.Clsdata col) b = 1 := by
      intro b hb
      unfold d0
      rw [if_pos ⟨hbands b (Finset.mem_range.mp hb), hpure⟩]
    rw [Finset.sum_congr rfl hone]
    simp [mkAcc]
  have hsr : a'.srFlag = 0 := by
    rw [h5]
    have hzero : ∀ b ∈ Finset.range sen.nbands,
        d5 ext sen (sen.Clsdata col) b (sen.OneRowlndSR b col) = 0 := by
      intro b hb
      have hb' := Finset.mem_range.mp hb
      unfold d5 bandD5
      rw [hcc b hb']
      have hnr : bandNewR sen (sen.Clsdata col) (TMBandIndx b) (sen.OneRowlndSR b col) =
          clampRefl sen.lndSR_ScaFct (sen.OneRowlndSR b col) := by
        unfold bandNewR
        rw [if_pos ⟨hnf b hb', hw b hb'⟩]
      rw [hnr, if_neg (by
        have hcl := clampRefl_nonneg sen.lndSR_ScaFct hsf (sen.OneRowlndSR b col)
        omega)]
    rw [Finset.sum_eq_zero hzero]
    simp [mkAcc]
  have hslot : ∀ b, b < sen.nbands → 0 ≤ a'.out (b * 2) ∧ 0 ≤ a'.out (b * 2 + 1) := by
    intro b hb
    have hs := hsv b hb
    have hcl := clampRefl_nonneg sen.lndSR_ScaFct hsf (sen.OneRowlndSR b col)
    have hclq : (0 : ℚ) ≤ ((clampRefl sen.lndSR_ScaFct (sen.OneRowlndSR b col) : ℤ) : ℚ) := by
      exact_mod_cast hcl
    unfold slotVals at hs
    rw [hcc b hb] at hs
    unfold bandSlotVals at hs
    rw [if_pos ⟨hnf b hb, hw b hb⟩] at hs
    split_ifs at hs with hneg
    · simp only [Option.elim] at hs
      rw [hs.1, hs.2]
      constructor <;> exact mul_nonneg (le_of_lt hsf) hclq
    · push_neg at hneg
      simp only [Option.elim] at hs
      rw [hs.1, hs.2]
      exact ⟨hneg.1, hneg.2⟩
  have hsrne : ¬ a'.srFlag ≠ 0 := by
    simp [hsr]
  rw [CalculateAlbedo_ok_eq ext sen out row col qa snow hval a' hok, if_neg hsrne]
  have hq : classifyQA a'.t0 a'.t1 a'.t2 a'.t3 sen.nbands qa = 0 := by
    unfold classifyQA
    rw [if_pos ht0]
  refine ⟨rfl, ?_, ?_⟩
  · rcases broadband_snd_cases (select_TM_coefficents_sw sen.instrument snow) a'.OneRowlndSR
        col sen.lndSR_ScaFct sen.nbands (classifyQA a'.t0 a'.t1 a'.t2 a'.t3 sen.nbands qa)
        (classifyQA a'.t0 a'.t1 a'.t2 a'.t3 sen.nbands qa) a'.out with
      ⟨h, -⟩ | ⟨h, -⟩
    · exact Or.inr h
    · exact Or.inl (h.trans hq)
  · intro j hj
    have hfrj := broadband_fst_frame (select_TM_coefficents_sw sen.instrument snow)
      a'.OneRowlndSR col sen.lndSR_ScaFct sen.nbands
      (classifyQA a'.t0 a'.t1 a'.t2 a'.t3 sen.nbands qa) a'.out j (by omega)
    have hb2 : j / 2 < sen.nbands := by omega
    obtain ⟨hL, hR⟩ := hslot (j / 2) hb2
    have hout : 0 ≤ a'.out j := by
      rcases (by omega : j = j / 2 * 2 ∨ j = j / 2 * 2 + 1) with h | h
      · rw [h]
        exact hL
      · rw [h]
        exact hR
    exact le_of_le_of_eq hout hfrj.symm

/-- Low-purity isotropic sensor: one active band, a usable (not all-zero)
BRDF triple (0.4, 0, 0) whose rounded first weight is 0, pixel purity 0, raw
reflectance -5 at every cell. -/
def sen5 : Sensor :=
  { instrument := .TM, nbands := 1, SZA := 0, SAA := 0, pix_VZA := 0, pix_VAA := 0,
    lndSR_ScaFct := 1, SR_fillValue := -9999, Clsdata := fun _ => 0, Cls_fillValue := -2,
    actu_ncls := 5, pure_thrsh := fun _ => 0,
    BRDF_paras := fun _ _ j => if j = 0 then 2/5 else 0,
    OneRowlndSR := fun _ _ => -5 }

/-- Counterexample to claim C5 as stated: at the pixel of `sen5` every active
band has non-fill reflectance and a usable (not all-three-zero) BRDF triple,
yet the call leaves -5 in output slot 0 (the isotropic fallback stores the
raw negative reflectance) and ends with quality code 4, not 0. -/
theorem C5_counterexample :
    (∀ b, b < sen5.nbands → ¬ sen5.OneRowlndSR b 0 = sen5.SR_fillValue) ∧
    (∀ b, b < sen5.nbands → ¬ brdfAllZero sen5 (sen5.Clsdata 0) (TMBandIndx b)) ∧
    (CalculateAlbedo ext1 sen5 (fun _ => 0) 0 0 7 0).ret = .success ∧
    (CalculateAlbedo ext1 sen5 (fun _ => 0) 0 0 7 0).lndPixAlbedo 0 = -5 ∧
    (CalculateAlbedo ext1 sen5 (fun _ => 0) 0 0 7 0).QA = 4 := by
  refine ⟨by norm_num [sen5], by norm_num [sen5, brdfAllZero, TMBandIndx], ?_, ?_, ?_⟩ <;>
    norm_num [CalculateAlbedo, mkAcc, ext1, sen5, select_sw_at_TM, runBands_one, processBand,
      processBand2, brdfAllZero, TMBandIndx, c_round, trunc0, clampRefl, classifyQA, broadband,
      legacy_TM_coefficents_sw, TM_coefficents_vis, TM_coefficents_nir,
      bbAccum_one, bbStep, zeroBB, addIcpt, rescueBB, rescueLoop_one, updF]

/-- Clean six-band sensor: every band has BRDF triple (1, 0, 0), purity 2
above the threshold 1, scale factor 1 and raw reflectance 1 everywhere. -/
def sen6 : Sensor :=
  { instrument := .TM, nbands := 6, SZA := 0, SAA := 0, pix_VZA := 0, pix_VAA := 0,
    lndSR_ScaFct := 1, SR_fillValue := -9999, Clsdata := fun _ => 0, Cls_fillValue := -2,
    actu_ncls := 5, pure_thrsh := fun _ => 2,
    BRDF_paras := fun _ _ j => if j = 0 then 1 else 0,
    OneRowlndSR := fun _ _ => 1 }

/-- Witness for C5 at the concrete pixel of `sen6`: the call succeeds, the
quality code is 0 or 4, and all narrow-band slots are nonnegative. -/
theorem C5_clean_pixel_quality_witness :
    (CalculateAlbedo ext1 sen6 (fun _ => 0) 0 0 7 0).ret = .success ∧
    ((CalculateAlbedo ext1 sen6 (fun _ => 0) 0 0 7 0).QA = 0 ∨
     (CalculateAlbedo ext1 sen6 (fun _ => 0) 0 0 7 0).QA = 4) ∧
    ∀ j, j ≤ 11 → 0 ≤ (CalculateAlbedo ext1 sen6 (fun _ => 0) 0 0 7 0).lndPixAlbedo j :=
  C5_clean_pixel_quality ext1 sen6 (fun _ => 0) 0 0 7 0
    (by norm_num [sen6])
    (by norm_num [sen6])
    (by norm_num [sen6])
    (by norm_num [sen6])
    (by
      intro b hb
      norm_num [sen6, brdfAllZero, TMBandIndx])
    (by norm_num [sen6, ext1])
    (by
      intro b hb
      norm_num [sen6, bandW0, c_round, trunc0, TMBandIndx])
    (by
      intro b hb
      norm_num [sen6])


/-- Claim C9 (amended). When the closest-class search fails at band `b` of a
valid-class pixel (every earlier band resolving), the call returns failure
immediately: the quality code is unchanged, no later band leaves any trace —
every output slot outside the earlier bands' narrow-band slots is unchanged,
and every raster cell outside the earlier bands' processed column is
unchanged. (The unamended claim is false in one point: the output vector is
NOT unchanged — bands before `b` have already written their narrow-band
slots.) -/
theorem C9_resolution_abort (ext : Ext) (sen : Sensor) (out : ℕ → ℚ) (row col qa snow : ℤ)
    (b : ℕ)
    (hval : ¬ (sen.Clsdata col = sen.Cls_fillValue ∨ sen.actu_ncls < sen.Clsdata col ∨
      sen.Clsdata col < 0))
    (hb : b < sen.nbands)
    (hpre : ∀ k, k < b → ¬ bandFails ext sen (sen.Clsdata col) k)
    (hfail : bandFails ext sen (sen.Clsdata col) b) :
    (CalculateAlbedo ext sen out row col qa snow).ret = .failure ∧
    (CalculateAlbedo ext sen out row col qa snow).QA = qa ∧
    (∀ j, (∀ k, k < b → ¬ j = k * 2 ∧ ¬ j = k * 2 + 1) →
      (CalculateAlbedo ext sen out row col qa snow).lndPixAlbedo j = out j) ∧
    (∀ k c, ¬ (k < b ∧ c = col) →
      (CalculateAlbedo ext sen out row col qa snow).sensor.OneRowlndSR k c =
        sen.OneRowlndSR k c) := by
  obtain ⟨a1, hokb, herr⟩ :=
    runBands_err_of ext sen col (sen.Clsdata col) sen.nbands b (mkAcc sen out) hb hpre hfail
  obtain ⟨a', hok', hfr, hrv, hof, -⟩ :=
    runBands_char ext sen col (sen.Clsdata col) b (mkAcc sen out) hpre
  rw [hok'] at hokb
  injection hokb with he
  subst he
  rw [CalculateAlbedo_err_eq ext sen out row col qa snow hval a' herr]
  exact ⟨rfl, rfl, hof, hfr⟩

/-- Two-band sensor whose first band (legacy index 2) has BRDF triple
(1, 0, 0) and whose second band (legacy index 3) has an all-zero triple, so
the second band triggers the closest-class search; raw reflectance 1
everywhere. -/
def sen9 : Sensor :=
  { instrument := .TM, nbands := 2, SZA := 0, SAA := 0, pix_VZA := 0, pix_VAA := 0,
    lndSR_ScaFct := 1, SR_fillValue := -9999, Clsdata := fun _ => 0, Cls_fillValue := -2,
    actu_ncls := 5, pure_thrsh := fun _ => 2,
    BRDF_paras := fun _ ti j => if ti = 2 ∧ j = 0 then 1 else 0,
    OneRowlndSR := fun _ _ => 1 }

/-- Counterexample to claim C9 as stated: at the pixel of `sen9` the
closest-class search fails at band 1, the call returns failure with the
quality code unchanged — but the output vector is NOT unchanged from its
pre-call all-zero contents: band 0 already wrote 1 into slot 0. -/
theorem C9_counterexample :
    bandFails ext1 sen9 (sen9.Clsdata 0) 1 ∧
    (CalculateAlbedo ext1 sen9 (fun _ => 0) 0 0 7 0).ret = .failure ∧
    (CalculateAlbedo ext1 sen9 (fun _ => 0) 0 0 7 0).QA = 7 ∧
    (CalculateAlbedo ext1 sen9 (fun _ => 0) 0 0 7 0).lndPixAlbedo 0 = 1 := by
  refine ⟨by norm_num [bandFails, brdfAllZero, sen9, TMBandIndx, ext1], ?_, ?_, ?_⟩ <;>
    norm_num [CalculateAlbedo, mkAcc, ext1, sen9, select_sw_at_TM, runBands_two, runBands_one,
      processBand, processBand2, brdfAllZero, TMBandIndx, c_round, trunc0, clampRefl, updF]

/-- Witness for C9 at the concrete pixel of `sen9` with failing band 1. -/
theorem C9_resolution_abort_witness :
    (CalculateAlbedo ext1 sen9 (fun _ => 0) 0 0 7 0).ret = .failure ∧
    (CalculateAlbedo ext1 sen9 (fun _ => 0) 0 0 7 0).QA = 7 ∧
    (∀ j, (∀ k, k < 1 → ¬ j = k * 2 ∧ ¬ j = k * 2 + 1) →
      (CalculateAlbedo ext1 sen9 (fun _ => 0) 0 0 7 0).lndPixAlbedo j = (fun _ => (0 : ℚ)) j) ∧
    (∀ k c, ¬ (k < 1 ∧ c = 0) →
      (CalculateAlbedo ext1 sen9 (fun _ => 0) 0 0 7 0).sensor.OneRowlndSR k c =
        sen9.OneRowlndSR k c) :=
  C9_resolution_abort ext1 sen9 (fun _ => 0) 0 0 7 0 1
    (by norm_num [sen9])
    (by norm_num [sen9])
    (by
      intro k hk
      have hk0 : k = 0 := by omega
      subst hk0
      norm_num [bandFails, brdfAllZero, sen9, TMBandIndx])
    (by norm_num [bandFails, brdfAllZero, sen9, TMBandIndx, ext1])


theorem bbStep_at14 (sw : List ℚ) (i : ℕ) (hi : i ≤ 5) (o : ℕ → ℚ) :
    bbStep sw i o 14 = o 14 + TM_coefficents_vis.getD i 0 * o (i * 2) := by
  have h1 : ¬ i * 2 = 12 := by omega
  have h2 : ¬ i * 2 = 13 := by omega
  simp [bbStep, updF, h1, h2]

theorem bbStep_at15 (sw : List ℚ) (i : ℕ) (hi : i ≤ 5) (o : ℕ → ℚ) :
    bbStep sw i o 15 = o 15 + TM_coefficents_vis.getD i 0 * o (i * 2 + 1) := by
  have h1 : ¬ i * 2 + 1 = 12 := by omega
  have h2 : ¬ i * 2 + 1 = 13 := by omega
  have h3 : ¬ i * 2 + 1 = 14 := by omega
  simp [bbStep, updF, h1, h2, h3]

theorem bbStep_at16 (sw : List ℚ) (i : ℕ) (hi : i ≤ 5) (o : ℕ → ℚ) :
    bbStep sw i o 16 = o 16 + TM_coefficents_nir.getD i 0 * o (i * 2) := by
  have h1 : ¬ i * 2 = 12 := by omega
  have h2 : ¬ i * 2 = 13 := by omega
  have h3 : ¬ i * 2 = 14 := by omega
  have h4 : ¬ i * 2 = 15 := by omega
  simp [bbStep, updF, h1, h2, h3, h4]

theorem bbStep_at17 (sw : List ℚ) (i : ℕ) (hi : i ≤ 5) (o : ℕ → ℚ) :
    bbStep sw i o 17 = o 17 + TM_coefficents_nir.getD i 0 * o (i * 2 + 1) := by
  have h1 : ¬ i * 2 + 1 = 12 := by omega
  have h2 : ¬ i * 2 + 1 = 13 := by omega
  have h3 : ¬ i * 2 + 1 = 14 := by omega
  have h4 : ¬ i * 2 + 1 = 15 := by omega
  have h5 : ¬ i * 2 + 1 = 16 := by omega
  simp [bbStep, updF, h1, h2, h3, h4, h5]

/-- Off the two shortwave slots, one accumulation step does not depend on the
shortwave table. -/
theorem bbStep_agree (sw sw' : List ℚ) (i : ℕ) (hi : i ≤ 5) (o o' : ℕ → ℚ)
    (h : ∀ k, ¬ (k = 12 ∨ k = 13) → o k = o' k) :
    ∀ k, ¬ (k = 12 ∨ k = 13) → bbStep sw i o k = bbStep sw' i o' k := by
  intro k hk
  by_cases e14 : k = 14
  · subst e14
    rw [bbStep_at14 sw i hi o, bbStep_at14 sw' i hi o', h 14 (by norm_num),
      h (i * 2) (by omega)]
  · by_cases e15 : k = 15
    · subst e15
      rw [bbStep_at15 sw i hi o, bbStep_at15 sw' i hi o', h 15 (by norm_num),
        h (i * 2 + 1) (by omega)]
    · by_cases e16 : k = 16
      · subst e16
        rw [bbStep_at16 sw i hi o, bbStep_at16 sw' i hi o', h 16 (by norm_num),
          h (i * 2) (by omega)]
      · by_cases e17 : k = 17
        · subst e17
          rw [bbStep_at17 sw i hi o, bbStep_at17 sw' i hi o', h 17 (by norm_num),
            h (i * 2 + 1) (by omega)]
        · rw [bbStep_frame sw i o k (by omega), bbStep_frame sw' i o' k (by omega)]
          exact h k hk

/-- Off the two shortwave slots, the whole accumulation loop (over at most
six bands) does not depend on the shortwave table. -/
theorem bbAccum_agree (sw sw' : List ℚ) (n : ℕ) (o o' : ℕ → ℚ)
    (h : ∀ k, ¬ (k = 12 ∨ k = 13) → o k = o' k) :
    n ≤ 6 → ∀ k, ¬ (k = 12 ∨ k = 13) → bbAccum sw n o k = bbAccum sw' n o' k := by
  induction n with
  | zero =>
    intro _ k hk
    exact h k hk
  | succ n ih =>
    intro hn k hk
    exact bbStep_agree sw sw' n (by omega) (bbAccum sw n o) (bbAccum sw' n o')
      (ih (by omega)) k hk

theorem addIcpt_at14 (sw : List ℚ) (o : ℕ → ℚ) :
    addIcpt sw o 14 = o 14 + TM_coefficents_vis.getD 6 0 := by
  simp [addIcpt, updF]

theorem addIcpt_at15 (sw : List ℚ) (o : ℕ → ℚ) :
    addIcpt sw o 15 = o 15 + TM_coefficents_vis.getD 6 0 := by
  simp [addIcpt, updF]

theorem addIcpt_at16 (sw : List ℚ) (o : ℕ → ℚ) :
    addIcpt sw o 16 = o 16 + TM_coefficents_nir.getD 6 0 := by
  simp [addIcpt, updF]

theorem addIcpt_at17 (sw : List ℚ) (o : ℕ → ℚ) :
    addIcpt sw o 17 = o 17 + TM_coefficents_nir.getD 6 0 := by
  simp [addIcpt, updF]

/-- Off the two shortwave slots, the intercept additions do not depend on the
shortwave table. -/
theorem addIcpt_agree (sw sw' : List ℚ) (o o' : ℕ → ℚ)
    (h : ∀ k, ¬ (k = 12 ∨ k = 13) → o k = o' k) :
    ∀ k, ¬ (k = 12 ∨ k = 13) → addIcpt sw o k = addIcpt sw' o' k := by
  intro k hk
  by_cases e14 : k = 14
  · subst e14
    rw [addIcpt_at14, addIcpt_at14, h 14 (by norm_num)]
  · by_cases e15 : k = 15
    · subst e15
      rw [addIcpt_at15, addIcpt_at15, h 15 (by norm_num)]
    · by_cases e16 : k = 16
      · subst e16
        rw [addIcpt_at16, addIcpt_at16, h 16 (by norm_num)]
      · by_cases e17 : k = 17
        · subst e17
          rw [addIcpt_at17, addIcpt_at17, h 17 (by norm_num)]
        · rw [addIcpt_frame sw o k (by omega), addIcpt_frame sw' o' k (by omega)]
          exact h k hk

/-- The rescue loop reads the output vector only at its own two slots, so it
preserves agreement there. -/
theorem rescueLoop_congr (c : List ℚ) (refl : ℕ → ℤ → ℤ) (col : ℤ) (sf : ℚ) (j0 j1 : ℕ)
    (hne : ¬ j1 = j0) (n : ℕ) (o o' : ℕ → ℚ)
    (h0 : o j0 = o' j0) (h1 : o j1 = o' j1) :
    rescueLoop c refl col sf j0 j1 n o j0 = rescueLoop c refl col sf j0 j1 n o' j0 ∧
    rescueLoop c refl col sf j0 j1 n o j1 = rescueLoop c refl col sf j0 j1 n o' j1 := by
  induction n with
  | zero => exact ⟨h0, h1⟩
  | succ n ih =>
    obtain ⟨i0, i1⟩ := ih
    have hne' : ¬ j0 = j1 := fun hx => hne hx.symm
    constructor
    · simp [rescueLoop, updF, hne, hne', i0]
    · simp [rescueLoop, updF, hne, hne', i1]

theorem rescueBB_congr (c : List ℚ) (refl : ℕ → ℤ → ℤ) (col : ℤ) (sf : ℚ) (j0 j1 : ℕ)
    (hne : ¬ j1 = j0) (n : ℕ) (o o' : ℕ → ℚ)
    (h0 : o j0 = o' j0) (h1 : o j1 = o' j1) :
    rescueBB c refl col sf j0 j1 n o j0 = rescueBB c refl col sf j0 j1 n o' j0 ∧
    rescueBB c refl col sf j0 j1 n o j1 = rescueBB c refl col sf j0 j1 n o' j1 := by
  obtain ⟨i0, i1⟩ := rescueLoop_congr c refl col sf j0 j1 hne n o o' h0 h1
  have hne' : ¬ j0 = j1 := fun hx => hne hx.symm
  constructor
  · simp [rescueBB, updF, hne, hne', i0]
  · simp [rescueBB, updF, hne, hne', i1]

/-- The conditional shortwave rescue of lines 327-345 as a map on the output
vector. -/
def swRescueBB (sw : List ℚ) (refl : ℕ → ℤ → ℤ) (col : ℤ) (sf : ℚ) (n : ℕ)
    (o : ℕ → ℚ) : ℕ → ℚ :=
  if o 12 ≤ 0 ∨ o 13 ≤ 0 then rescueBB sw refl col sf 12 13 n o else o

/-- The conditional visible rescue of lines 348-366 as a map on the output
vector. -/
def visRescueBB (refl : ℕ → ℤ → ℤ) (col : ℤ) (sf : ℚ) (n : ℕ) (o : ℕ → ℚ) : ℕ → ℚ :=
  if o 14 ≤ 0 ∨ o 15 ≤ 0 then rescueBB TM_coefficents_vis refl col sf 14 15 n o else o

/-- The conditional near-infrared rescue of lines 369-387 as a map on the
output vector. -/
def nirRescueBB (refl : ℕ → ℤ → ℤ) (col : ℤ) (sf : ℚ) (n : ℕ) (o : ℕ → ℚ) : ℕ → ℚ :=
  if o 16 ≤ 0 ∨ o 17 ≤ 0 then rescueBB TM_coefficents_nir refl col sf 16 17 n o else o

/-- The output half of the broadband stage is the three conditional rescues
applied after accumulation and intercepts. -/
theorem broadband_fst_decomp (sw : List ℚ) (refl : ℕ → ℤ → ℤ) (col : ℤ) (sf : ℚ)
    (n : ℕ) (q : ℤ) (o : ℕ → ℚ) :
    (broadband sw refl col sf n q o).1 =
      nirRescueBB refl col sf n (visRescueBB refl col sf n
        (swRescueBB sw refl col sf n (addIcpt sw (bbAccum sw n (zeroBB o))))) := by
  unfold broadband swRescueBB visRescueBB nirRescueBB
  simp only [apply_ite Prod.fst]

theorem swRescueBB_frame (sw : List ℚ) (refl : ℕ → ℤ → ℤ) (col : ℤ) (sf : ℚ) (n : ℕ)
    (o : ℕ → ℚ) (k : ℕ) (hk : ¬ (k = 12 ∨ k = 13)) :
    swRescueBB sw refl col sf n o k = o k := by
  unfold swRescueBB
  split_ifs with hc
  · exact rescueBB_frame sw refl col sf 12 13 n k o (fun hx => hk (Or.inl hx))
      (fun hx => hk (Or.inr hx))
  · rfl

/-- Off the two shortwave slots, the visible rescue maps agreeing vectors to
agreeing vectors. -/
theorem visRescueBB_agree (refl : ℕ → ℤ → ℤ) (col : ℤ) (sf : ℚ) (n : ℕ) (o o' : ℕ → ℚ)
    (h : ∀ k, ¬ (k = 12 ∨ k = 13) → o k = o' k) :
    ∀ k, ¬ (k = 12 ∨ k = 13) → visRescueBB refl col sf n o k = visRescueBB refl col sf n o' k := by
  intro k hk
  have h14 := h 14 (by norm_num)
  have h15 := h 15 (by norm_num)
  unfold visRescueBB
  by_cases hc : o 14 ≤ 0 ∨ o 15 ≤ 0
  · rw [if_pos hc, if_pos (show o' 14 ≤ 0 ∨ o' 15 ≤ 0 by rw [← h14, ← h15]; exact hc)]
    by_cases e14 : k = 14
    · subst e14
      exact (rescueBB_congr TM_coefficents_vis refl col sf 14 15 (by omega) n o o' h14 h15).1
    · by_cases e15 : k = 15
      · subst e15
        exact (rescueBB_congr TM_coefficents_vis refl col sf 14 15 (by omega) n o o' h14 h15).2
      · rw [rescueBB_frame TM_coefficents_vis refl col sf 14 15 n k o e14 e15,
          rescueBB_frame TM_coefficents_vis refl col sf 14 15 n k o' e14 e15]
        exact h k hk
  · rw [if_neg hc, if_neg (show ¬ (o' 14 ≤ 0 ∨ o' 15 ≤ 0) from fun hx => hc (by
      rw [h14, h15]; exact hx))]
    exact h k hk

/-- Off the two shortwave slots, the near-infrared rescue maps agreeing
vectors to agreeing vectors. -/
theorem nirRescueBB_agree (refl : ℕ → ℤ → ℤ) (col : ℤ) (sf : ℚ) (n : ℕ) (o o' : ℕ → ℚ)
    (h : ∀ k, ¬ (k = 12 ∨ k = 13) → o k = o' k) :
    ∀ k, ¬ (k = 12 ∨ k = 13) → nirRescueBB refl col sf n o k = nirRescueBB refl col sf n o' k := by
  intro k hk
  have h16 := h 16 (by norm_num)
  have h17 := h 17 (by norm_num)
  unfold nirRescueBB
  by_cases hc : o 16 ≤ 0 ∨ o 17 ≤ 0
  · rw [if_pos hc, if_pos (show o' 16 ≤ 0 ∨ o' 17 ≤ 0 by rw [← h16, ← h17]; exact hc)]
    by_cases e16 : k = 16
    · subst e16
      exact (rescueBB_congr TM_coefficents_nir refl col sf 16 17 (by omega) n o o' h16 h17).1
    · by_cases e17 : k = 17
      · subst e17
        exact (rescueBB_congr TM_coefficents_nir refl col sf 16 17 (by omega) n o o' h16 h17).2
      · rw [rescueBB_frame TM_coefficents_nir refl col sf 16 17 n k o e16 e17,
          rescueBB_frame TM_coefficents_nir refl col sf 16 17 n k o' e16 e17]
        exact h k hk
  · rw [if_neg hc, if_neg (show ¬ (o' 16 ≤ 0 ∨ o' 17 ≤ 0) from fun hx => hc (by
      rw [h16, h17]; exact hx))]
    exact h k hk

/-- Off the two shortwave slots, the broadband stage's output does not depend
on the shortwave table (with at most six bands) nor on the incoming quality
code. -/
theorem broadband_agree (sw sw' : List ℚ) (refl : ℕ → ℤ → ℤ) (col : ℤ) (sf : ℚ)
    (n : ℕ) (hn : n ≤ 6) (q q' : ℤ) (o : ℕ → ℚ) :
    ∀ j, ¬ (j = 12 ∨ j = 13) →
      (broadband sw refl col sf n q o).1 j = (broadband sw' refl col sf n q' o).1 j := by
  intro j hj
  rw [broadband_fst_decomp, broadband_fst_decomp]
  have hacc : ∀ k, ¬ (k = 12 ∨ k = 13) →
      addIcpt sw (bbAccum sw n (zeroBB o)) k = addIcpt sw' (bbAccum sw' n (zeroBB o)) k :=
    addIcpt_agree sw sw' _ _ (bbAccum_agree sw sw' n (zeroBB o) (zeroBB o) (fun k _ => rfl) hn)
  have hstage1 : ∀ k, ¬ (k = 12 ∨ k = 13) →
      swRescueBB sw refl col sf n (addIcpt sw (bbAccum sw n (zeroBB o))) k =
      swRescueBB sw' refl col sf n (addIcpt sw' (bbAccum sw' n (zeroBB o))) k := by
    intro k hk
    rw [swRescueBB_frame sw refl col sf n _ k hk, swRescueBB_frame sw' refl col sf n _ k hk]
    exact hacc k hk
  exact nirRescueBB_agree refl col sf n _ _
    (visRescueBB_agree refl col sf n _ _ hstage1) j hj


/-- Claim C10. The shortwave coefficient-table selection of lines 91-114 is
total and deterministic: the operational-land-imager instrument selects
`LC8_n2b_lib` (`LC8_n2b_lib_snow` under a nonzero snow flag), the
multispectral-imager instrument selects `MSI_n2b_lib_sw`
(`MSI_n2b_lib_sw_snow` under a nonzero snow flag), and every other
instrument selects the legacy table with no error; and the visible and
near-infrared products do not depend on the snow flag — with at most six
active bands, output slots 14-17 of a call are identical under any two snow
flags. -/
theorem C10_sw_selection_total :
    (∀ s : ℤ,
      select_TM_coefficents_sw .OLI s =
        (if ¬ s = 0 then LC8_n2b_lib_snow else LC8_n2b_lib) ∧
      select_TM_coefficents_sw .MSI s =
        (if ¬ s = 0 then MSI_n2b_lib_sw_snow else MSI_n2b_lib_sw) ∧
      select_TM_coefficents_sw .TM s = legacy_TM_coefficents_sw ∧
      select_TM_coefficents_sw .ETM s = legacy_TM_coefficents_sw ∧
      select_TM_coefficents_sw .unknown s = legacy_TM_coefficents_sw) ∧
    (∀ (ext : Ext) (sen : Sensor) (out : ℕ → ℚ) (row col qa s s' : ℤ),
      sen.nbands ≤ 6 → ∀ j, 14 ≤ j → j ≤ 17 →
        (CalculateAlbedo ext sen out row col qa s).lndPixAlbedo j =
        (CalculateAlbedo ext sen out row col qa s').lndPixAlbedo j) := by
  constructor
  · intro s
    refine ⟨rfl, ?_, rfl, rfl, rfl⟩
    show (if Instr.MSI = Instr.OLI then _ else _) = _
    rw [if_neg (by simp)]
    rfl
  · intro ext sen out row col qa s s' hn j hj1 hj2
    by_cases hval : sen.Clsdata col = sen.Cls_fillValue ∨ sen.actu_ncls < sen.Clsdata col ∨
        sen.Clsdata col < 0
    · rw [CalculateAlbedo_invalid_eq ext sen out row col qa s hval,
        CalculateAlbedo_invalid_eq ext sen out row col qa s' hval]
    · cases hr : runBands ext sen col (sen.Clsdata col) sen.nbands (mkAcc sen out) with
      | error e =>
        rw [CalculateAlbedo_err_eq ext sen out row col qa s hval e hr,
          CalculateAlbedo_err_eq ext sen out row col qa s' hval e hr]
      | ok a =>
        rw [CalculateAlbedo_ok_eq ext sen out row col qa s hval a hr,
          CalculateAlbedo_ok_eq ext sen out row col qa s' hval a hr]
        by_cases hsr : a.srFlag ≠ 0
        · rw [if_pos hsr, if_pos hsr]
        · rw [if_neg hsr, if_neg hsr]
          exact broadband_agree (select_TM_coefficents_sw sen.instrument s)
            (select_TM_coefficents_sw sen.instrument s') a.OneRowlndSR col
            sen.lndSR_ScaFct sen.nbands hn
            (classifyQA a.t0 a.t1 a.t2 a.t3 sen.nbands qa)
            (classifyQA a.t0 a.t1 a.t2 a.t3 sen.nbands qa) a.out j (by omega)

/-- Witness for C10 at the concrete pixel of `sen1`: slot 14 after a call
with snow flag 1 equals slot 14 after a call with snow flag 0. -/
theorem C10_sw_selection_total_witness :
    (CalculateAlbedo ext1 sen1 (fun _ => 0) 0 0 7 1).lndPixAlbedo 14 =
    (CalculateAlbedo ext1 sen1 (fun _ => 0) 0 0 7 0).lndPixAlbedo 14 :=
  C10_sw_selection_total.2 ext1 sen1 (fun _ => 0) 0 0 7 1 0
    (by norm_num [sen1]) 14 (by norm_num) (by norm_num)


/-- The sensor context as a later call sees it: same fields, with the raster
row replaced by what the earlier call left in place. -/
def mutSensor (sen : Sensor) (f : ℕ → ℤ → ℤ) : Sensor :=
  { sen with OneRowlndSR := f }

/-- Replaying a completed prefix of the band loop on the mutated raster and
an arbitrary output vector: the raster reaches the same fixed point, every
slot the replay writes receives its old value, untouched slots keep the new
input, and all tallies except the negative-anisotropy one (which needs a
clean fill counter) are reproduced. -/
theorem runBands_replay (ext : Ext) (sen : Sensor) (col icls : ℤ) (m : ℕ)
    (out out2 : ℕ → ℚ)
    (hpre : ∀ k, k < m → ¬ bandFails ext sen icls k) (a1 a2 : Acc)
    (h1 : runBands ext sen col icls m (mkAcc sen out) = .ok a1)
    (h2 : runBands ext (mutSensor sen a1.OneRowlndSR) col icls m
      (mkAcc (mutSensor sen a1.OneRowlndSR) out2) = .ok a2) :
    (∀ k c, a2.OneRowlndSR k c = a1.OneRowlndSR k c) ∧
    (∀ j, a2.out j = a1.out j ∨ a2.out j = out2 j) ∧
    (∀ j, (∀ b, b < m → ¬ j = b * 2 ∧ ¬ j = b * 2 + 1) → a2.out j = out2 j) ∧
    a2.t0 = a1.t0 ∧ a2.t1 = a1.t1 ∧ a2.t2 = a1.t2 ∧ a2.t4 = a1.t4 ∧
    a2.srFlag = a1.srFlag ∧
    (a1.srFlag = 0 → a2.t3 = a1.t3) := by
  obtain ⟨a1', hok1, hfr1, hrv1, hof1, hsv1, h01, h11, h21, h31, h41, h51⟩ :=
    runBands_char ext sen col icls m (mkAcc sen out) hpre
  rw [h1] at hok1
  injection hok1 with he1
  subst he1
  have hpre2 : ∀ k, k < m → ¬ bandFails ext (mutSensor sen a1.OneRowlndSR) icls k := hpre
  obtain ⟨a2', hok2, hfr2, hrv2, hof2, hsv2, h02, h12, h22, h32, h42, h52⟩ :=
    runBands_char ext (mutSensor sen a1.OneRowlndSR) col icls m
      (mkAcc (mutSensor sen a1.OneRowlndSR) out2) hpre2
  rw [h2] at hok2
  injection hok2 with he2
  subst he2
  have hraster : ∀ k c, a2.OneRowlndSR k c = a1.OneRowlndSR k c := by
    intro k c
    by_cases hkc : k < m ∧ c = col
    · obtain ⟨hk, hc⟩ := hkc
      rw [hc]
      have e2 : a2.OneRowlndSR k col = newR ext sen icls k (a1.OneRowlndSR k col) :=
        hrv2 k hk
      have e1 : a1.OneRowlndSR k col = newR ext sen icls k (sen.OneRowlndSR k col) :=
        hrv1 k hk
      rw [e2, e1]
      exact newR_idem ext sen icls k (sen.OneRowlndSR k col)
    · exact hfr2 k c hkc
  have hof : ∀ j, (∀ b, b < m → ¬ j = b * 2 ∧ ¬ j = b * 2 + 1) → a2.out j = out2 j :=
    fun j hj => hof2 j hj
  have hout : ∀ j, a2.out j = a1.out j ∨ a2.out j = out2 j := by
    intro j
    by_cases hnb : ∀ b, b < m → ¬ j = b * 2 ∧ ¬ j = b * 2 + 1
    · exact Or.inr (hof j hnb)
    · push_neg at hnb
      obtain ⟨b, hb, hj0⟩ := hnb
      have hj : j = b * 2 ∨ j = b * 2 + 1 := by
        by_cases hx : j = b * 2
        · exact Or.inl hx
        · exact Or.inr (hj0 hx)
      have hsv2b : (slotVals ext sen icls b (a1.OneRowlndSR b col)).elim
          (a2.out (b * 2) = out2 (b * 2) ∧ a2.out (b * 2 + 1) = out2 (b * 2 + 1))
          (fun vw => a2.out (b * 2) = vw.1 ∧ a2.out (b * 2 + 1) = vw.2) := hsv2 b hb
      have hsv1b : (slotVals ext sen icls b (sen.OneRowlndSR b col)).elim
          (a1.out (b * 2) = out (b * 2) ∧ a1.out (b * 2 + 1) = out (b * 2 + 1))
          (fun vw => a1.out (b * 2) = vw.1 ∧ a1.out (b * 2 + 1) = vw.2) := hsv1 b hb
      have hr1b : a1.OneRowlndSR b col = newR ext sen icls b (sen.OneRowlndSR b col) :=
        hrv1 b hb
      rw [hr1b] at hsv2b
      rcases slotVals_newR ext sen icls b (sen.OneRowlndSR b col) with ⟨hfill, hnone⟩ | heq
      · rw [hnone] at hsv2b
        simp only [Option.elim] at hsv2b
        rcases hj with hj | hj <;> rw [hj]
        · exact Or.inr hsv2b.1
        · exact Or.inr hsv2b.2
      · rw [heq] at hsv2b
        cases hv : slotVals ext sen icls b (sen.OneRowlndSR b col) with
        | none =>
          rw [hv] at hsv2b
          simp only [Option.elim] at hsv2b
          rcases hj with hj | hj <;> rw [hj]
          · exact Or.inr hsv2b.1
          · exact Or.inr hsv2b.2
        | some vw =>
          rw [hv] at hsv2b hsv1b
          simp only [Option.elim] at hsv2b hsv1b
          rcases hj with hj | hj <;> rw [hj]
          · exact Or.inl (hsv2b.1.trans hsv1b.1.symm)
          · exact Or.inl (hsv2b.2.trans hsv1b.2.symm)
  have hsum02 : (fun b => d0 ext (mutSensor sen a1.OneRowlndSR) icls b) =
      (fun b => d0 ext sen icls b) := rfl
  have hsum12 : (fun b => d1 ext (mutSensor sen a1.OneRowlndSR) icls b) =
      (fun b => d1 ext sen icls b) := rfl
  have hsum22 : (fun b => d2 (mutSensor sen a1.OneRowlndSR) icls b) =
      (fun b => d2 sen icls b) := rfl
  have ht0 : a2.t0 = a1.t0 := by
    rw [h02, h01, hsum02]
    rfl
  have ht1 : a2.t1 = a1.t1 := by
    rw [h12, h11, hsum12]
    rfl
  have ht2 : a2.t2 = a1.t2 := by
    rw [h22, h21, hsum22]
    rfl
  have ht4 : a2.t4 = a1.t4 := by
    rw [h42, h41]
    have hcongr : ∀ b ∈ Finset.range m,
        d4 ext (mutSensor sen a1.OneRowlndSR) icls b
          ((mkAcc (mutSensor sen a1.OneRowlndSR) out2).OneRowlndSR b col) =
        d4 ext sen icls b ((mkAcc sen out).OneRowlndSR b col) := by
      intro b hb
      have hb' := Finset.mem_range.mp hb
      show d4 ext sen icls b (a1.OneRowlndSR b col) =
        d4 ext sen icls b (sen.OneRowlndSR b col)
      rw [hrv1 b hb']
      exact d4_newR ext sen icls b (sen.OneRowlndSR b col)
    rw [Finset.sum_congr rfl hcongr]
    rfl
  have hsrf : a2.srFlag = a1.srFlag := by
    rw [h52, h51]
    have hcongr : ∀ b ∈ Finset.range m,
        d5 ext (mutSensor sen a1.OneRowlndSR) icls b
          ((mkAcc (mutSensor sen a1.OneRowlndSR) out2).OneRowlndSR b col) =
        d5 ext sen icls b ((mkAcc sen out).OneRowlndSR b col) := by
      intro b hb
      have hb' := Finset.mem_range.mp hb
      show d5 ext sen icls b (a1.OneRowlndSR b col) =
        d5 ext sen icls b (sen.OneRowlndSR b col)
      rw [hrv1 b hb']
      exact d5_newR ext sen icls b (sen.OneRowlndSR b col)
    rw [Finset.sum_congr rfl hcongr]
    rfl
  have ht3 : a1.srFlag = 0 → a2.t3 = a1.t3 := by
    intro hz
    have hmk : (mkAcc sen out).srFlag = 0 := rfl
    have hsum0 : Finset.sum (Finset.range m)
        (fun b => d5 ext sen icls b ((mkAcc sen out).OneRowlndSR b col)) = 0 := by
      omega
    have hz5 : ∀ b ∈ Finset.range m,
        d5 ext sen icls b (sen.OneRowlndSR b col) = 0 := by
      intro b hb
      exact Finset.sum_eq_zero_iff.mp hsum0 b hb
    rw [h32, h31]
    have hcongr : ∀ b ∈ Finset.range m,
        d3 ext (mutSensor sen a1.OneRowlndSR) icls b
          ((mkAcc (mutSensor sen a1.OneRowlndSR) out2).OneRowlndSR b col) =
        d3 ext sen icls b ((mkAcc sen out).OneRowlndSR b col) := by
      intro b hb
      have hb' := Finset.mem_range.mp hb
      show d3 ext sen icls b (a1.OneRowlndSR b col) =
        d3 ext sen icls b (sen.OneRowlndSR b col)
      rw [hrv1 b hb']
      exact d3_newR ext sen icls b (sen.OneRowlndSR b col) (hz5 b hb)
    rw [Finset.sum_congr rfl hcongr]
    rfl
  exact ⟨hraster, hout, hof, ht0, ht1, ht2, ht4, hsrf, ht3⟩


/-- Claim C8. Calling `CalculateAlbedo` a second time with the sensor
context, output buffer and quality code left by a first call (same row,
column and snow flag) reproduces the first call bit for bit: the output
vector, the quality code and the return status of the second call equal
those of the first. This holds because the in-place clamp is idempotent, the
fill test of line 245 reads the already-clamped value in both calls, and the
broadband stage re-zeros its six slots before accumulating. -/
theorem C8_idempotent (ext : Ext) (sen : Sensor) (out : ℕ → ℚ) (row col qa snow : ℤ) :
    (∀ j, (CalculateAlbedo ext (CalculateAlbedo ext sen out row col qa snow).sensor
        (CalculateAlbedo ext sen out row col qa snow).lndPixAlbedo row col
        (CalculateAlbedo ext sen out row col qa snow).QA snow).lndPixAlbedo j =
      (CalculateAlbedo ext sen out row col qa snow).lndPixAlbedo j) ∧
    (CalculateAlbedo ext (CalculateAlbedo ext sen out row col qa snow).sensor
        (CalculateAlbedo ext sen out row col qa snow).lndPixAlbedo row col
        (CalculateAlbedo ext sen out row col qa snow).QA snow).QA =
      (CalculateAlbedo ext sen out row col qa snow).QA ∧
    (CalculateAlbedo ext (CalculateAlbedo ext sen out row col qa snow).sensor
        (CalculateAlbedo ext sen out row col qa snow).lndPixAlbedo row col
        (CalculateAlbedo ext sen out row col qa snow).QA snow).ret =
      (CalculateAlbedo ext sen out row col qa snow).ret := by
  by_cases hval : sen.Clsdata col = sen.Cls_fillValue ∨ sen.actu_ncls < sen.Clsdata col ∨
      sen.Clsdata col < 0
  · have h1eq := CalculateAlbedo_invalid_eq ext sen out row col qa snow hval
    rw [h1eq]
    show (∀ j, (CalculateAlbedo ext sen out row col qa snow).lndPixAlbedo j = out j) ∧
      (CalculateAlbedo ext sen out row col qa snow).QA = qa ∧
      (CalculateAlbedo ext sen out row col qa snow).ret = .failure
    rw [h1eq]
    exact ⟨fun j => rfl, rfl, rfl⟩
  · cases hr : runBands ext sen col (sen.Clsdata col) sen.nbands (mkAcc sen out) with
    | error e =>
      have h1eq := CalculateAlbedo_err_eq ext sen out row col qa snow hval e hr
      obtain ⟨b, hb, hpre, hfail, hrb⟩ :=
        runBands_error_inv ext sen col (sen.Clsdata col) sen.nbands (mkAcc sen out) e hr
      have hval2 : ¬ ((mutSensor sen e.OneRowlndSR).Clsdata col =
          (mutSensor sen e.OneRowlndSR).Cls_fillValue ∨
          (mutSensor sen e.OneRowlndSR).actu_ncls <
            (mutSensor sen e.OneRowlndSR).Clsdata col ∨
          (mutSensor sen e.OneRowlndSR).Clsdata col < 0) := hval
      have hpre2 : ∀ k, k < b → ¬ bandFails ext (mutSensor sen e.OneRowlndSR)
          ((mutSensor sen e.OneRowlndSR).Clsdata col) k := hpre
      have hfail2 : bandFails ext (mutSensor sen e.OneRowlndSR)
          ((mutSensor sen e.OneRowlndSR).Clsdata col) b := hfail
      have hb2 : b < (mutSensor sen e.OneRowlndSR).nbands := hb
      obtain ⟨a2, hok2, herr2⟩ :=
        runBands_err_of ext (mutSensor sen e.OneRowlndSR) col
          ((mutSensor sen e.OneRowlndSR).Clsdata col)
          (mutSensor sen e.OneRowlndSR).nbands b
          (mkAcc (mutSensor sen e.OneRowlndSR) e.out) hb2 hpre2 hfail2
      have hok2' : runBands ext (mutSensor sen e.OneRowlndSR) col (sen.Clsdata col) b
          (mkAcc (mutSensor sen e.OneRowlndSR) e.out) = .ok a2 := hok2
      obtain ⟨hraster, hout, hof, ht0, ht1, ht2, ht4, hsrf, ht3⟩ :=
        runBands_replay ext sen col (sen.Clsdata col) b out e.out hpre e a2 hrb hok2'
      have h2eq := CalculateAlbedo_err_eq ext (mutSensor sen e.OneRowlndSR) e.out row col
        qa snow hval2 a2 herr2
      rw [h1eq]
      show (∀ j, (CalculateAlbedo ext (mutSensor sen e.OneRowlndSR) e.out row col qa
          snow).lndPixAlbedo j = e.out j) ∧
        (CalculateAlbedo ext (mutSensor sen e.OneRowlndSR) e.out row col qa snow).QA = qa ∧
        (CalculateAlbedo ext (mutSensor sen e.OneRowlndSR) e.out row col qa snow).ret =
          .failure
      rw [h2eq]
      refine ⟨?_, rfl, rfl⟩
      intro j
      show a2.out j = e.out j
      rcases hout j with h | h <;> exact h
    | ok a =>
      have hres := runBands_ok_no_fail ext sen col (sen.Clsdata col) sen.nbands
        (mkAcc sen out) a hr
      have h1eq := CalculateAlbedo_ok_eq ext sen out row col qa snow hval a hr
      have hval2 : ¬ ((mutSensor sen a.OneRowlndSR).Clsdata col =
          (mutSensor sen a.OneRowlndSR).Cls_fillValue ∨
          (mutSensor sen a.OneRowlndSR).actu_ncls <
            (mutSensor sen a.OneRowlndSR).Clsdata col ∨
          (mutSensor sen a.OneRowlndSR).Clsdata col < 0) := hval
      by_cases hsr : a.srFlag ≠ 0
      · rw [if_pos hsr] at h1eq
        have hres2 : ∀ k, k < (mutSensor sen a.OneRowlndSR).nbands →
            ¬ bandFails ext (mutSensor sen a.OneRowlndSR)
              ((mutSensor sen a.OneRowlndSR).Clsdata col) k := hres
        obtain ⟨a2, hok2, -⟩ :=
          runBands_char ext (mutSensor sen a.OneRowlndSR) col
            ((mutSensor sen a.OneRowlndSR).Clsdata col)
            (mutSensor sen a.OneRowlndSR).nbands
            (mkAcc (mutSensor sen a.OneRowlndSR) a.out) hres2
        have hok2' : runBands ext (mutSensor sen a.OneRowlndSR) col (sen.Clsdata col)
            sen.nbands (mkAcc (mutSensor sen a.OneRowlndSR) a.out) = .ok a2 := hok2
        obtain ⟨hraster, hout, hof, ht0, ht1, ht2, ht4, hsrf, ht3⟩ :=
          runBands_replay ext sen col (sen.Clsdata col) sen.nbands out a.out hres a a2
            hr hok2'
        have hsr2 : a2.srFlag ≠ 0 := by
          rw [hsrf]
          exact hsr
        have h2eq : CalculateAlbedo ext (mutSensor sen a.OneRowlndSR) a.out row col
            (-1) snow =
            { sensor := { (mutSensor sen a.OneRowlndSR) with OneRowlndSR := a2.OneRowlndSR },
              lndPixAlbedo := a2.out, QA := -1, ret := .failure } := by
          rw [CalculateAlbedo_ok_eq ext (mutSensor sen a.OneRowlndSR) a.out row col
            (-1) snow hval2 a2 hok2, if_pos hsr2]
        rw [h1eq]
        show (∀ j, (CalculateAlbedo ext (mutSensor sen a.OneRowlndSR) a.out row col (-1)
            snow).lndPixAlbedo j = a.out j) ∧
          (CalculateAlbedo ext (mutSensor sen a.OneRowlndSR) a.out row col (-1) snow).QA =
            -1 ∧
          (CalculateAlbedo ext (mutSensor sen a.OneRowlndSR) a.out row col (-1) snow).ret =
            .failure
        rw [h2eq]
        refine ⟨?_, rfl, rfl⟩
        intro j
        show a2.out j = a.out j
        rcases hout j with h | h <;> exact h
      · rw [if_neg hsr] at h1eq
        have hsr0 : a.srFlag = 0 := by omega
        have hres2 : ∀ k, k < (mutSensor sen a.OneRowlndSR).nbands →
            ¬ bandFails ext (mutSensor sen a.OneRowlndSR)
              ((mutSensor sen a.OneRowlndSR).Clsdata col) k := hres
        obtain ⟨a2, hok2, -⟩ :=
          runBands_char ext (mutSensor sen a.OneRowlndSR) col
            ((mutSensor sen a.OneRowlndSR).Clsdata col)
            (mutSensor sen a.OneRowlndSR).nbands
            (mkAcc (mutSensor sen a.OneRowlndSR)
              (broadband (select_TM_coefficents_sw sen.instrument snow) a.OneRowlndSR col
                sen.lndSR_ScaFct sen.nbands
                (classifyQA a.t0 a.t1 a.t2 a.t3 sen.nbands qa) a.out).1) hres2
        have hok2' : runBands ext (mutSensor sen a.OneRowlndSR) col (sen.Clsdata col)
            sen.nbands (mkAcc (mutSensor sen a.OneRowlndSR)
              (broadband (select_TM_coefficents_sw sen.instrument snow) a.OneRowlndSR col
                sen.lndSR_ScaFct sen.nbands
                (classifyQA a.t0 a.t1 a.t2 a.t3 sen.nbands qa) a.out).1) = .ok a2 := hok2
        obtain ⟨hraster, hout, hof, ht0, ht1, ht2, ht4, hsrf, ht3⟩ :=
          runBands_replay ext sen col (sen.Clsdata col) sen.nbands out
            (broadband (select_TM_coefficents_sw sen.instrument snow) a.OneRowlndSR col
              sen.lndSR_ScaFct sen.nbands
              (classifyQA a.t0 a.t1 a.t2 a.t3 sen.nbands qa) a.out).1 hres a a2 hr hok2'
        have hsr2 : ¬ a2.srFlag ≠ 0 := by
          rw [hsrf]
          omega
        have h2eq : CalculateAlbedo ext (mutSensor sen a.OneRowlndSR)
            (broadband (select_TM_coefficents_sw sen.instrument snow) a.OneRowlndSR col
              sen.lndSR_ScaFct sen.nbands
              (classifyQA a.t0 a.t1 a.t2 a.t3 sen.nbands qa) a.out).1 row col
            (broadband (select_TM_coefficents_sw sen.instrument snow) a.OneRowlndSR col
              sen.lndSR_ScaFct sen.nbands
              (classifyQA a.t0 a.t1 a.t2 a.t3 sen.nbands qa) a.out).2 snow =
            { sensor := { (mutSensor sen a.OneRowlndSR) with OneRowlndSR := a2.OneRowlndSR },
              lndPixAlbedo := (broadband (select_TM_coefficents_sw sen.instrument snow)
                a2.OneRowlndSR col sen.lndSR_ScaFct sen.nbands
                (classifyQA a2.t0 a2.t1 a2.t2 a2.t3 sen.nbands
                  (broadband (select_TM_coefficents_sw sen.instrument snow) a.OneRowlndSR
                    col sen.lndSR_ScaFct sen.nbands
                    (classifyQA a.t0 a.t1 a.t2 a.t3 sen.nbands qa) a.out).2) a2.out).1,
              QA := (broadband (select_TM_coefficents_sw sen.instrument snow)
                a2.OneRowlndSR col sen.lndSR_ScaFct sen.nbands
                (classifyQA a2.t0 a2.t1 a2.t2 a2.t3 sen.nbands
                  (broadband (select_TM_coefficents_sw sen.instrument snow) a.OneRowlndSR
                    col sen.lndSR_ScaFct sen.nbands
                    (classifyQA a.t0 a.t1 a.t2 a.t3 sen.nbands qa) a.out).2) a2.out).2,
              ret := .success } := by
          rw [CalculateAlbedo_ok_eq ext (mutSensor sen a.OneRowlndSR) _ row col _ snow
            hval2 a2 hok2, if_neg hsr2]
          rfl
        have hbfunc : a2.OneRowlndSR = a.OneRowlndSR :=
          funext (fun k => funext (fun c => hraster k c))
        have hzero : zeroBB a2.out = zeroBB a.out := by
          funext j
          unfold zeroBB
          split_ifs with hj
          · rfl
          · rcases hout j with h | h
            · exact h
            · rw [h]
              exact broadband_fst_frame (select_TM_coefficents_sw sen.instrument snow)
                a.OneRowlndSR col sen.lndSR_ScaFct sen.nbands
                (classifyQA a.t0 a.t1 a.t2 a.t3 sen.nbands qa) a.out j (by omega)
        have hcongr : broadband (select_TM_coefficents_sw sen.instrument snow)
            a2.OneRowlndSR col sen.lndSR_ScaFct sen.nbands
            (classifyQA a2.t0 a2.t1 a2.t2 a2.t3 sen.nbands
              (broadband (select_TM_coefficents_sw sen.instrument snow) a.OneRowlndSR col
                sen.lndSR_ScaFct sen.nbands
                (classifyQA a.t0 a.t1 a.t2 a.t3 sen.nbands qa) a.out).2) a2.out =
            broadband (select_TM_coefficents_sw sen.instrument snow)
            a.OneRowlndSR col sen.lndSR_ScaFct sen.nbands
            (classifyQA a.t0 a.t1 a.t2 a.t3 sen.nbands
              (broadband (select_TM_coefficents_sw sen.instrument snow) a.OneRowlndSR col
                sen.lndSR_ScaFct sen.nbands
                (classifyQA a.t0 a.t1 a.t2 a.t3 sen.nbands qa) a.out).2) a.out := by
          rw [ht0, ht1, ht2, ht3 hsr0]
          exact broadband_congr (select_TM_coefficents_sw sen.instrument snow)
            a2.OneRowlndSR a.OneRowlndSR col sen.lndSR_ScaFct sen.nbands
            (classifyQA a.t0 a.t1 a.t2 a.t3 sen.nbands
              (broadband (select_TM_coefficents_sw sen.instrument snow) a.OneRowlndSR col
                sen.lndSR_ScaFct sen.nbands
                (classifyQA a.t0 a.t1 a.t2 a.t3 sen.nbands qa) a.out).2)
            a2.out a.out hzero hbfunc
        rw [h1eq]
        show (∀ j, (CalculateAlbedo ext (mutSensor sen a.OneRowlndSR)
            (broadband (select_TM_coefficents_sw sen.instrument snow) a.OneRowlndSR col
              sen.lndSR_ScaFct sen.nbands
              (classifyQA a.t0 a.t1 a.t2 a.t3 sen.nbands qa) a.out).1 row col
            (broadband (select_TM_coefficents_sw sen.instrument snow) a.OneRowlndSR col
              sen.lndSR_ScaFct sen.nbands
              (classifyQA a.t0 a.t1 a.t2 a.t3 sen.nbands qa) a.out).2 snow).lndPixAlbedo j =
            (broadband (select_TM_coefficents_sw sen.instrument snow) a.OneRowlndSR col
              sen.lndSR_ScaFct sen.nbands
              (classifyQA a.t0 a.t1 a.t2 a.t3 sen.nbands qa) a.out).1 j) ∧
          (CalculateAlbedo ext (mutSensor sen a.OneRowlndSR)
            (broadband (select_TM_coefficents_sw sen.instrument snow) a.OneRowlndSR col
              sen.lndSR_ScaFct sen.nbands
              (classifyQA a.t0 a.t1 a.t2 a.t3 sen.nbands qa) a.out).1 row col
            (broadband (select_TM_coefficents_sw sen.instrument snow) a.OneRowlndSR col
              sen.lndSR_ScaFct sen.nbands
              (classifyQA a.t0 a.t1 a.t2 a.t3 sen.nbands qa) a.out).2 snow).QA =
            (broadband (select_TM_coefficents_sw sen.instrument snow) a.OneRowlndSR col
              sen.lndSR_ScaFct sen.nbands
              (classifyQA a.t0 a.t1 a.t2 a.t3 sen.nbands qa) a.out).2 ∧
          (CalculateAlbedo ext (mutSensor sen a.OneRowlndSR)
            (broadband (select_TM_coefficents_sw sen.instrument snow) a.OneRowlndSR col
              sen.lndSR_ScaFct sen.nbands
              (classifyQA a.t0 a.t1 a.t2 a.t3 sen.nbands qa) a.out).1 row col
            (broadband (select_TM_coefficents_sw sen.instrument snow) a.OneRowlndSR col
              sen.lndSR_ScaFct sen.nbands
              (classifyQA a.t0 a.t1 a.t2 a.t3 sen.nbands qa) a.out).2 snow).ret = .success
        rw [h2eq]
        refine ⟨?_, ?_, rfl⟩
        · intro j
          show (broadband (select_TM_coefficents_sw sen.instrument snow)
              a2.OneRowlndSR col sen.lndSR_ScaFct sen.nbands
              (classifyQA a2.t0 a2.t1 a2.t2 a2.t3 sen.nbands
                (broadband (select_TM_coefficents_sw sen.instrument snow) a.OneRowlndSR
                  col sen.lndSR_ScaFct sen.nbands
                  (classifyQA a.t0 a.t1 a.t2 a.t3 sen.nbands qa) a.out).2) a2.out).1 j =
            (broadband (select_TM_coefficents_sw sen.instrument snow) a.OneRowlndSR col
              sen.lndSR_ScaFct sen.nbands
              (classifyQA a.t0 a.t1 a.t2 a.t3 sen.nbands qa) a.out).1 j
          rw [hcongr, broadband_fst_qa (select_TM_coefficents_sw sen.instrument snow)
            a.OneRowlndSR col sen.lndSR_ScaFct sen.nbands
            (classifyQA a.t0 a.t1 a.t2 a.t3 sen.nbands
              (broadband (select_TM_coefficents_sw sen.instrument snow) a.OneRowlndSR col
                sen.lndSR_ScaFct sen.nbands
                (classifyQA a.t0 a.t1 a.t2 a.t3 sen.nbands qa) a.out).2)
            (classifyQA a.t0 a.t1 a.t2 a.t3 sen.nbands qa) a.out]
        · show (broadband (select_TM_coefficents_sw sen.instrument snow)
              a2.OneRowlndSR col sen.lndSR_ScaFct sen.nbands
              (classifyQA a2.t0 a2.t1 a2.t2 a2.t3 sen.nbands
                (broadband (select_TM_coefficents_sw sen.instrument snow) a.OneRowlndSR
                  col sen.lndSR_ScaFct sen.nbands
                  (classifyQA a.t0 a.t1 a.t2 a.t3 sen.nbands qa) a.out).2) a2.out).2 =
            (broadband (select_TM_coefficents_sw sen.instrument snow) a.OneRowlndSR col
              sen.lndSR_ScaFct sen.nbands
              (classifyQA a.t0 a.t1 a.t2 a.t3 sen.nbands qa) a.out).2
          rw [hcongr]
          rcases broadband_snd_cases (select_TM_coefficents_sw sen.instrument snow)
              a.OneRowlndSR col sen.lndSR_ScaFct sen.nbands
              (classifyQA a.t0 a.t1 a.t2 a.t3 sen.nbands
                (broadband (select_TM_coefficents_sw sen.instrument snow) a.OneRowlndSR
                  col sen.lndSR_ScaFct sen.nbands
                  (classifyQA a.t0 a.t1 a.t2 a.t3 sen.nbands qa) a.out).2)
              (classifyQA a.t0 a.t1 a.t2 a.t3 sen.nbands qa) a.out with
            ⟨h4a, h4b⟩ | ⟨hqa, hqb⟩
          · rw [h4a, h4b]
          · rw [hqa, hqb, classifyQA_fix]

end S2Albedo
